import Mathlib

/-!
Verification of the bill-payment transaction engine of the isubscribe
microservice (src/mobile/{airtime,data_bundle,electricity,education}.py)
against its natural-language specification.

The purchase pipelines are shallowly embedded as pure functions over an
explicit state (wallet balances, ledger of history rows, event trace).
Money is modelled as rationals (the source uses Python floats over Naira
amounts; all amounts of interest are exact decimals).  The external
provider call is a parameter: each `process_*` function receives the
provider response that the corresponding HTTP helper (`buy_airtime`,
`get_best_bundle`, ...) would have returned, with `none` standing for a
timeout / network failure / non-200 / empty body (all of which those
helpers collapse into an absent response).  Database writes to the
`history` table become appends (or in-place updates, mirroring
education's `update ... eq id`) on a ledger list, and every externally
visible action (wallet charge, provider call, merchant verification,
row insert/update) is also recorded in an event trace so that ordering
properties can be stated.
-/

deriving instance DecidableEq for Except

namespace Isubscribe

/-- CASHBACK_VALUE from src/utils/__init__.py line 21: the 1% cashback rate. -/
def CASHBACK_VALUE : ℚ := 1/100

/-- Wallet row of one user: spendable balance and cashback balance
(src table `wallet`, columns `balance` and `cashback_balance`). -/
structure Wallet where
  balance : ℚ
  cashback_balance : ℚ
  deriving Repr, DecidableEq

/-- Status values written into the `status` column of `history` rows. -/
inductive TxStatus
  | success
  | pending
  | failed
  | reversed
  deriving Repr, DecidableEq

/-- The subset of a `history` row that the specification's claims speak
about: title, `type` column, status, amount and the recorded
balance_before / balance_after.  The data-bundle paths write `None`
into balance_after for cashback-funded purchases, hence the `Option`. -/
structure Row where
  title : String
  rtype : String
  status : TxStatus
  amount : ℚ
  balance_before : ℚ
  balance_after : Option ℚ
  deriving Repr, DecidableEq

/-- Externally visible actions of one purchase call, in order. -/
inductive Event
  | charge (refund : Bool) (method : String)
  | providerCall (request_id : String)
  | verifyMerchant
  | rowInsert (s : TxStatus)
  | rowUpdate (idx : Nat) (s : TxStatus)
  deriving Repr, DecidableEq

/-- Durable state threaded through a purchase call: one user's wallet,
the `history` table (ledger) and the event trace of the call. -/
structure St where
  wallet : Wallet
  ledger : List Row
  events : List Event
  deriving Repr, DecidableEq

/-- Append one history row (supabase `.insert` on table `history`). -/
def St.insertRow (st : St) (r : Row) : St :=
  { st with ledger := st.ledger ++ [r], events := st.events ++ [.rowInsert r.status] }

/-- Overwrite the history row at position `idx` (supabase `.update`
keyed by the row id, as done by src/mobile/education.py). -/
def St.updateRow (st : St) (idx : Nat) (r : Row) : St :=
  { st with ledger := st.ledger.set idx r, events := st.events ++ [.rowUpdate idx r.status] }

/-- Record an event. -/
def St.logEvent (st : St) (e : Event) : St :=
  { st with events := st.events ++ [e] }

/-- Modelled from the spec: the `update_wallet_balance` Supabase RPC is a
database function whose body is not in the source tree (the category
modules only call it).  Spec section 4.3 describes the wallet store's
`reserve` as an atomic decrement of `balance` or `cashback_balance`
guarded by `balance >= amount` (a conditional update), with `release`
as its inverse; callers realise release by passing a negated amount.
So the RPC subtracts `amount` from the balance selected by
`charge_from`, failing when that would make it negative. -/
def update_wallet_balance (w : Wallet) (amount : ℚ) (charge_from : String) :
    Except String Wallet :=
  if charge_from = "wallet" then
    if w.balance < amount then .error "insufficient wallet balance"
    else .ok { w with balance := w.balance - amount }
  else
    if w.cashback_balance < amount then .error "insufficient cashback balance"
    else .ok { w with cashback_balance := w.cashback_balance - amount }

/-- Modelled from the spec: the `update_cashback_balance` Supabase RPC,
also a database function outside the source tree.  Per spec sections
4.3 and 3 it increments `cashback_balance` by `cashback` (callers pass
a negated value to reverse a credit) keeping the balance non-negative. -/
def update_cashback_balance (w : Wallet) (cashback : ℚ) : Except String Wallet :=
  if w.cashback_balance + cashback < 0 then .error "insufficient cashback balance"
  else .ok { w with cashback_balance := w.cashback_balance + cashback }

/-- Modelled from the spec: the `charge_wallet` Supabase RPC called by
src/mobile/airtime.py — the one-shot atomic store operation
parameterised by a balance delta and a cashback delta that spec
section 9 describes: it debits `amount` from the `charge_from` balance
and credits `cashback` to the cashback balance, atomically (nothing is
applied when either guard fails). -/
def rpc_charge_wallet (w : Wallet) (amount cashback : ℚ) (charge_from : String) :
    Except String Wallet :=
  match update_wallet_balance w amount charge_from with
  | .error e => .error e
  | .ok w1 => update_cashback_balance w1 cashback

/-- The `charge_wallet` closure of src/mobile/airtime.py lines 112-137:
snapshot balances are checked (no cashback cap here), then the single
`charge_wallet` RPC applies debit and cashback credit together; a
refund negates both deltas.  Returns the wallet as left by whatever
committed plus an optional error, mirroring the dict the source
returns. -/
def airtime_charge_wallet (balance cashback_balance : ℚ) (w : Wallet)
    (amount : ℚ) (method : String) (refund : Bool) : Wallet × Option String :=
  let return_cashback := amount * CASHBACK_VALUE
  let balance_to_check := if method = "wallet" then balance else cashback_balance
  if refund = false ∧ balance_to_check < amount then
    (w, some "Insufficient balance")
  else
    match rpc_charge_wallet w (if refund then -amount else amount)
        (if refund then -return_cashback else return_cashback) method with
    | .error e => (w, some e)
    | .ok w1 => (w1, none)

/-- The `charge_wallet` closure of src/mobile/data_bundle.py lines
196-220: rejects non-positive amounts and cashback-funded amounts above
1000, then issues the two separate RPCs (wallet debit, cashback
credit); a refund negates both.  The wallet returned reflects whatever
RPCs committed before an error, matching the source's two non-atomic
calls. -/
def data_bundle_charge_wallet (w : Wallet) (method : String) (amount : ℚ)
    (refund : Bool) : Wallet × Option String :=
  if amount ≤ 0 then (w, some "Invalid amount")
  else if method = "cashback" ∧ 1000 < amount then
    (w, some "You cannot purchase a plan above N 1,000 with Data Bonus at a time.")
  else
    let return_cashback := amount * CASHBACK_VALUE
    match update_wallet_balance w (if refund then -amount else amount) method with
    | .error e => (w, some e)
    | .ok w1 =>
      match update_cashback_balance w1
          (if refund then -return_cashback else return_cashback) with
      | .error e => (w1, some e)
      | .ok w2 => (w2, none)

/-- The `charge_wallet` closure of src/mobile/electricity.py lines
190-213, textually the same balance logic as src/mobile/data_bundle.py. -/
def electricity_charge_wallet (w : Wallet) (method : String) (amount : ℚ)
    (refund : Bool) : Wallet × Option String :=
  if amount ≤ 0 then (w, some "Invalid amount")
  else if method = "cashback" ∧ 1000 < amount then
    (w, some "You cannot purchase a plan above N 1,000 with Data Bonus at a time.")
  else
    let return_cashback := amount * CASHBACK_VALUE
    match update_wallet_balance w (if refund then -amount else amount) method with
    | .error e => (w, some e)
    | .ok w1 =>
      match update_cashback_balance w1
          (if refund then -return_cashback else return_cashback) with
      | .error e => (w1, some e)
      | .ok w2 => (w2, none)

/-- The `charge_wallet` closure of src/mobile/education.py lines 228-250.
Note the sign of the wallet delta is inverted relative to the data and
electricity versions: the charge (refund=False) passes `-amount` to
`update_wallet_balance` and the refund passes `+amount`, while the
cashback delta keeps the same orientation as the siblings.  There is no
cashback cap check here (the cap is checked earlier in
`process_education`). -/
def education_charge_wallet (w : Wallet) (method : String) (amount : ℚ)
    (refund : Bool) : Wallet × Option String :=
  if amount ≤ 0 then (w, some "Invalid amount")
  else
    let return_cashback := amount * CASHBACK_VALUE
    match update_wallet_balance w (if refund = false then -amount else amount) method with
    | .error e => (w, some e)
    | .ok w1 =>
      match update_cashback_balance w1
          (if refund = false then return_cashback else -return_cashback) with
      | .error e => (w1, some e)
      | .ok w2 => (w2, none)

/-- VTPass `/pay` response as far as the coordinators inspect it: the
canonical `code` field ("000" success, "099" pending, otherwise
failure), `none` when the body carried no usable code. -/
structure VTResp where
  code : Option String
  deriving Repr, DecidableEq

/-- Gsub response after the normalisation done by `get_best_bundle`
(src/mobile/data_bundle.py lines 136-148): code defaults to 0, status
defaults to "failed". -/
structure GsubResp where
  code : Int
  status : String
  deriving Repr, DecidableEq

/-- N3T response as inspected by the `super` branch: its `status` string
and optional message. -/
structure N3tResp where
  status : String
  message : Option String
  deriving Repr, DecidableEq

/-- The airtime coordinator, src/mobile/airtime.py `process_airtime`
(lines 68-256).  Parameters: the threaded state, the requested amount,
the payment method, the server-generated nanoid `request_id`, and the
provider response `buy_airtime` came back with (`none` = timeout /
network error / non-200 / empty body, which `buy_airtime` maps to
`None`).  Returns the final state and either an error (a raised Python
exception) or the `success` flag of the returned dict. -/
def process_airtime (st : St) (amount : ℚ) (payment_method : String)
    (request_id : String) (resp : Option VTResp) : St × Except String Bool :=
  if amount = 0 then (st, .error "Amount is required")
  else if amount < 25 then (st, .error "Airtime amount below 25 not allowed.")
  else if ¬(payment_method = "wallet" ∨ payment_method = "cashback") then
    (st, .error "Unknown payment method selected.")
  else
    let balance := st.wallet.balance
    let cashback_balance := st.wallet.cashback_balance
    match airtime_charge_wallet balance cashback_balance st.wallet amount payment_method false with
    | (w1, some e) => ({ st with wallet := w1 }, .error e)
    | (w1, none) =>
      let st1 := (({ st with wallet := w1 }).logEvent (.charge false payment_method)).logEvent
        (.providerCall request_id)
      match resp with
      | none => (st1, .error "No response was received from the server")
      | some r =>
        match r.code with
        | none => (st1, .error "Invalid response format: missing code")
        | some code =>
          let bonus_cashback := amount * CASHBACK_VALUE
          if code = "000" then
            let st2 := st1.insertRow
              { title := "Airtime Subscription", rtype := "airtime_topup",
                status := .success, amount := amount, balance_before := balance,
                balance_after := some (balance - amount) }
            let st3 := st2.insertRow
              { title := "Data Bonus", rtype := "cashback",
                status := .success, amount := bonus_cashback, balance_before := balance,
                balance_after := some (balance - amount) }
            (st3, .ok true)
          else if code = "099" then
            let st2 := st1.insertRow
              { title := "Airtime Subscription", rtype := "airtime_topup",
                status := .pending, amount := amount, balance_before := balance,
                balance_after := some (balance - amount) }
            (st2, .ok false)
          else
            match airtime_charge_wallet balance cashback_balance st1.wallet amount payment_method true with
            | (w2, some e) => ({ st1 with wallet := w2 }, .error e)
            | (w2, none) =>
              let st2 := ({ st1 with wallet := w2 }).logEvent (.charge true payment_method)
              let st3 := st2.insertRow
                { title := "Airtime Subscription", rtype := "airtime_topup",
                  status := .failed, amount := amount, balance_before := balance,
                  balance_after := some balance }
              (st3, .ok false)

/-- Total charged for an electricity payment: the requested amount plus
the 10% COMMISSION markup of src/mobile/electricity.py lines 164-166
(`amount = (amount * COMMISSION) + amount`). -/
def electricity_total (amount_in : ℚ) : ℚ :=
  amount_in * (1/10) + amount_in

/-- The electricity coordinator, src/mobile/electricity.py
`process_electricity` (lines 115-378).  `amount_in` is the requested
amount before the 10% commission markup of line 166; the merchant /
service lookup parameters (meter number, variation code, service id)
do not influence the money flow and are elided.  Note the function
performs no merchant verification: `verify_merchant` is only exposed
as a separate HTTP endpoint (src/mobile/views.py line 763). -/
def process_electricity (st : St) (amount_in : ℚ) (payment_method : String)
    (request_id : String) (resp : Option VTResp) : St × Except String Bool :=
  if amount_in = 0 then (st, .error "Amount is required")
  else if amount_in < 100 then (st, .error "Electricity amount below 100 not allowed.")
  else
    let amount := electricity_total amount_in
    if ¬(payment_method = "wallet" ∨ payment_method = "cashback") then
      (st, .error "Unknown payment method selected.")
    else
      let balance := st.wallet.balance
      let cashback_balance := st.wallet.cashback_balance
      if payment_method = "wallet" ∧ balance < amount then
        (st, .error "Insufficient wallet balance.")
      else if payment_method = "cashback" ∧ cashback_balance < amount then
        (st, .error "Insufficient cashback balance.")
      else
        match electricity_charge_wallet st.wallet payment_method amount false with
        | (w1, some e) => ({ st with wallet := w1 }, .error e)
        | (w1, none) =>
          let st1 := (({ st with wallet := w1 }).logEvent (.charge false payment_method)).logEvent
            (.providerCall request_id)
          match resp with
          | none => (st1, .error "No response was received from the server")
          | some r =>
            match r.code with
            | none => (st1, .error "Invalid response format: missing code")
            | some code =>
              let bonus_cashback := amount * CASHBACK_VALUE
              if code = "000" then
                let st2 := st1.insertRow
                  { title := "Electricity Bill Payment", rtype := "meter_topup",
                    status := .success, amount := amount, balance_before := balance,
                    balance_after := some (balance - amount) }
                let st3 := st2.insertRow
                  { title := "Cashback Bonus", rtype := "cashback",
                    status := .success, amount := bonus_cashback, balance_before := balance,
                    balance_after := some (balance - amount) }
                (st3, .ok true)
              else if code = "099" then
                let st2 := st1.insertRow
                  { title := "Electricity Bill Payment", rtype := "meter_topup",
                    status := .pending, amount := amount, balance_before := balance,
                    balance_after := some (balance - amount) }
                (st2, .ok false)
              else
                match electricity_charge_wallet st1.wallet payment_method amount true with
                | (w2, some e) => ({ st1 with wallet := w2 }, .error e)
                | (w2, none) =>
                  let st2 := ({ st1 with wallet := w2 }).logEvent (.charge true payment_method)
                  let st3 := st2.insertRow
                    { title := "Electricity Bill Payment", rtype := "meter_topup",
                      status := .failed, amount := amount, balance_before := balance,
                      balance_after := some balance }
                  (st3, .ok false)

/-- Total charged for an education purchase,
src/mobile/education.py line 190:
`total_amount = (base_amount * quantity) * (1 + commission_rate)`. -/
def education_total (base_amount : ℚ) (quantity : Nat) (commission_rate : ℚ) : ℚ :=
  base_amount * quantity * (1 + commission_rate)

/-- Transaction titles of src/mobile/education.py lines 273-277. -/
def education_title (service_type : String) : String :=
  if service_type = "jamb" then "JAMB PIN Purchase"
  else if service_type = "waec" then "WAEC Result Checker"
  else if service_type = "de" then "Direct Entry PIN Purchase"
  else "Education Service"

/-- The education coordinator, src/mobile/education.py
`process_education` (lines 124-435).  `base_amount` and
`commission_rate` come from the `education` service-config table;
`verification` is the `verify_education_merchant` response used for
jamb / de (waec needs none and the source short-circuits it); `resp`
is the `buy_education` response.  Mirrors the source's order of
operations faithfully: validation, balance pre-checks, merchant
verification, then the provider call, then the wallet charge, then a
`pending` history row that later branches update in place. -/
def process_education (st : St) (service_type : String) (quantity : Nat)
    (base_amount commission_rate : ℚ) (payment_method : String)
    (request_id : String) (verification : Option VTResp) (resp : Option VTResp) :
    St × Except String Bool :=
  if ¬(service_type = "jamb" ∨ service_type = "waec" ∨ service_type = "de") then
    (st, .error "Invalid service type. Must be jamb, waec, or de")
  else if quantity < 1 ∨ 10 < quantity then
    (st, .error "Quantity must be between 1 and 10")
  else if base_amount ≤ 0 then (st, .error "Invalid service price configuration")
  else
    let total_amount := education_total base_amount quantity commission_rate
    if ¬(payment_method = "wallet" ∨ payment_method = "cashback") then
      (st, .error "Invalid payment method.")
    else
      let balance := st.wallet.balance
      let cashback_balance := st.wallet.cashback_balance
      if payment_method = "wallet" ∧ balance < total_amount then
        (st, .error "Insufficient wallet balance.")
      else if payment_method = "cashback" ∧ 1000 < total_amount then
        (st, .error "You cannot purchase education services above N1,000 with Data Bonus")
      else if payment_method = "cashback" ∧ cashback_balance < total_amount then
        (st, .error "Insufficient cashback balance.")
      else
        let doVerify := service_type = "jamb" ∨ service_type = "de"
        let st0 := if doVerify then st.logEvent .verifyMerchant else st
        if doVerify ∧ (verification = none ∨ ¬((verification.map VTResp.code).join = some "000")) then
          (st0, .error "Failed to verify Profile ID. Please check the Profile ID and try again.")
        else
          let st1 := st0.logEvent (.providerCall request_id)
          match resp with
          | none => (st1, .error "No response received from education service provider")
          | some r =>
            match r.code with
            | none => (st1, .error "Invalid response format: missing code")
            | some code =>
              let bonus_cashback := total_amount * CASHBACK_VALUE
              match education_charge_wallet st1.wallet payment_method total_amount false with
              | (w1, some e) => ({ st1 with wallet := w1 }, .error e)
              | (w1, none) =>
                let st2 := ({ st1 with wallet := w1 }).logEvent (.charge false payment_method)
                let tx_idx := st2.ledger.length
                let payload : Row :=
                  { title := education_title service_type, rtype := "education",
                    status := .pending, amount := total_amount, balance_before := balance,
                    balance_after := some (balance - total_amount) }
                let st3 := st2.insertRow payload
                if code = "000" then
                  let st4 := st3.updateRow tx_idx { payload with status := .success }
                  let st5 := st4.insertRow
                    { title := "Isubscribe Points", rtype := "cashback",
                      status := .success, amount := bonus_cashback, balance_before := balance,
                      balance_after := some (balance - total_amount) }
                  (st5, .ok true)
                else if code = "099" then
                  match education_charge_wallet st3.wallet payment_method total_amount true with
                  | (w2, some e) => ({ st3 with wallet := w2 }, .error e)
                  | (w2, none) =>
                    let st4 := ({ st3 with wallet := w2 }).logEvent (.charge true payment_method)
                    let st5 := st4.updateRow tx_idx { payload with status := .pending }
                    (st5, .ok false)
                else
                  match education_charge_wallet st3.wallet payment_method total_amount true with
                  | (w2, some e) => ({ st3 with wallet := w2 }, .error e)
                  | (w2, none) =>
                    let st4 := ({ st3 with wallet := w2 }).logEvent (.charge true payment_method)
                    let st5 := st4.updateRow tx_idx
                      { payload with status := .failed, balance_after := some balance }
                    (st5, .ok false)

/-- The `category == 'best'` (Gsub) branch of
src/mobile/data_bundle.py `process_data_bundle` (lines 236-384).
`price` and `commission` come from the `gsub` plan table; the charged
amount is their sum.  `resp` is the normalised `get_best_bundle`
response (`none` when the call failed to produce a body). -/
def process_data_bundle_best (st : St) (price commission : ℚ)
    (payment_method : String) (request_id : String) (resp : Option GsubResp) :
    St × Except String Bool :=
  if ¬(payment_method = "wallet" ∨ payment_method = "cashback") then
    (st, .error "Unknown payment method selected.")
  else
    let balance := st.wallet.balance
    let amount := price + commission
    match data_bundle_charge_wallet st.wallet payment_method amount false with
    | (w1, some e) => ({ st with wallet := w1 }, .error e)
    | (w1, none) =>
      let st1 := (({ st with wallet := w1 }).logEvent (.charge false payment_method)).logEvent
        (.providerCall request_id)
      match resp with
      | none => (st1, .error "No response was returned from the server.")
      | some r =>
        let return_cashback := amount * CASHBACK_VALUE
        if r.status = "failed" ∨ r.status = "TRANSACTION_FAILED" then
          match data_bundle_charge_wallet st1.wallet payment_method amount true with
          | (w2, some e) => ({ st1 with wallet := w2 }, .error e)
          | (w2, none) =>
            let st2 := ({ st1 with wallet := w2 }).logEvent (.charge true payment_method)
            let st3 := st2.insertRow
              { title := "Data Subscription", rtype := "data_topup",
                status := .failed, amount := amount, balance_before := balance,
                balance_after := if payment_method = "wallet" then some balance else none }
            (st3, .ok false)
        else if r.code = 200 then
          let st2 := st1.insertRow
            { title := "Data Subscription", rtype := "data_topup",
              status := .success, amount := amount, balance_before := balance,
              balance_after := if payment_method = "wallet" then some (balance - amount) else none }
          let st3 := st2.insertRow
            { title := "Data Bonus", rtype := "cashback",
              status := .success, amount := return_cashback, balance_before := balance,
              balance_after := if payment_method = "wallet" then some (balance - amount) else none }
          (st3, .ok true)
        else if r.status = "reversed" then
          let st2 := st1.insertRow
            { title := "Data Subscription", rtype := "data_topup",
              status := .reversed, amount := amount, balance_before := balance,
              balance_after := some balance }
          (st2, .ok false)
        else
          let st2 := st1.insertRow
            { title := "Data Subscription", rtype := "data_topup",
              status := .pending, amount := amount, balance_before := balance,
              balance_after := if payment_method = "wallet" then some (balance - amount) else none }
          (st2, .ok false)

/-- The `category == 'super'` (N3T) branch of
src/mobile/data_bundle.py `process_data_bundle` (lines 387-511).
`price` comes from the `n3t` plan table and already includes the
commission.  Note the source files the purchase row with status
`success` even when the N3T status is "pending" (lines 424-441 never
change `payload['status']`). -/
def process_data_bundle_super (st : St) (price : ℚ)
    (payment_method : String) (request_id : String) (resp : Option N3tResp) :
    St × Except String Bool :=
  if ¬(payment_method = "wallet" ∨ payment_method = "cashback") then
    (st, .error "Unknown payment method selected.")
  else
    let balance := st.wallet.balance
    let cashback_balance := st.wallet.cashback_balance
    let amount := price
    if amount > balance ∧ payment_method = "wallet" then
      (st, .error "Insufficient wallet balance for the selected data plan.")
    else if amount > cashback_balance ∧ payment_method = "cashback" then
      (st, .error "Insufficient cashback balance for the selected data plan.")
    else
      match data_bundle_charge_wallet st.wallet payment_method amount false with
      | (w1, some e) => ({ st with wallet := w1 }, .error e)
      | (w1, none) =>
        let st1 := (({ st with wallet := w1 }).logEvent (.charge false payment_method)).logEvent
          (.providerCall request_id)
        match resp with
        | none => (st1, .error "Server failed to return a response.")
        | some r =>
          let return_cashback := amount * CASHBACK_VALUE
          if r.status = "success" ∨ r.status = "pending" then
            let st2 := st1.insertRow
              { title := "Data Subscription", rtype := "data_topup",
                status := .success, amount := amount, balance_before := balance,
                balance_after := if payment_method = "wallet" then some (balance - amount) else none }
            if r.status = "success" then
              let st3 := st2.insertRow
                { title := "Data Bonus", rtype := "cashback",
                  status := .success, amount := return_cashback, balance_before := balance,
                  balance_after := if payment_method = "wallet" then some (balance - amount) else none }
              (st3, .ok true)
            else
              (st2, .ok false)
          else if r.status = "fail" ∨ r.status = "failed" ∨ r.status = "error" then
            match data_bundle_charge_wallet st1.wallet payment_method amount true with
            | (w2, some e) => ({ st1 with wallet := w2 }, .error e)
            | (w2, none) =>
              let st2 := ({ st1 with wallet := w2 }).logEvent (.charge true payment_method)
              let st3 := st2.insertRow
                { title := "Data Subscription", rtype := "data_topup",
                  status := .failed, amount := amount, balance_before := balance,
                  balance_after := some balance }
              (st3, .ok false)
          else
            (st1, .error "An unknown occured while trying to process request.")

/-- The `category == 'regular'` (VTPass) branch of
src/mobile/data_bundle.py `process_data_bundle` (lines 514-649).
`price` and `commission` come from the `vtpass` plan table; the charged
amount is their sum.  `resp` is the `get_regular_bundle` response. -/
def process_data_bundle_regular (st : St) (price commission : ℚ)
    (payment_method : String) (request_id : String) (resp : Option VTResp) :
    St × Except String Bool :=
  if ¬(payment_method = "wallet" ∨ payment_method = "cashback") then
    (st, .error "Unknown payment method selected.")
  else
    let balance := st.wallet.balance
    let amount := price + commission
    match data_bundle_charge_wallet st.wallet payment_method amount false with
    | (w1, some e) => ({ st with wallet := w1 }, .error e)
    | (w1, none) =>
      let st1 := (({ st with wallet := w1 }).logEvent (.charge false payment_method)).logEvent
        (.providerCall request_id)
      match resp with
      | none => (st1, .error "No response was received from the server")
      | some r =>
        match r.code with
        | none => (st1, .error "Invalid response format: missing code")
        | some code =>
          let return_cashback := amount * CASHBACK_VALUE
          if code = "000" then
            let st2 := st1.insertRow
              { title := "Data Subscription", rtype := "data_topup",
                status := .success, amount := amount, balance_before := balance,
                balance_after := if payment_method = "wallet" then some (balance - amount) else none }
            let st3 := st2.insertRow
              { title := "Data Bonus", rtype := "cashback",
                status := .success, amount := return_cashback, balance_before := balance,
                balance_after := if payment_method = "wallet" then some (balance - amount) else none }
            (st3, .ok true)
          else if code = "099" then
            let st2 := st1.insertRow
              { title := "Data Subscription", rtype := "data_topup",
                status := .pending, amount := amount, balance_before := balance,
                balance_after := if payment_method = "wallet" then some (balance - amount) else none }
            (st2, .ok false)
          else
            match data_bundle_charge_wallet st1.wallet payment_method amount true with
            | (w2, some e) => ({ st1 with wallet := w2 }, .error e)
            | (w2, none) =>
              let st2 := ({ st1 with wallet := w2 }).logEvent (.charge true payment_method)
              let st3 := st2.insertRow
                { title := "Data Subscription", rtype := "data_topup",
                  status := .failed, amount := amount, balance_before := balance,
                  balance_after := if payment_method = "wallet" then some balance else none }
              (st3, .ok false)

section RunLemmas

/-- Symbolic description of a wallet-funded airtime purchase that the
provider answers with the success code "000". -/
theorem airtime_success_run (st : St) (a : ℚ) (rid : String)
    (h25 : 25 ≤ a) (hb : a ≤ st.wallet.balance) (hcb : 0 ≤ st.wallet.cashback_balance) :
    process_airtime st a "wallet" rid (some ⟨some "000"⟩) =
      ({ wallet := ⟨st.wallet.balance - a, st.wallet.cashback_balance + a * CASHBACK_VALUE⟩,
         ledger := st.ledger ++
           [⟨"Airtime Subscription", "airtime_topup", .success, a,
             st.wallet.balance, some (st.wallet.balance - a)⟩,
            ⟨"Data Bonus", "cashback", .success, a * CASHBACK_VALUE,
             st.wallet.balance, some (st.wallet.balance - a)⟩],
         events := st.events ++ [.charge false "wallet", .providerCall rid,
           .rowInsert .success, .rowInsert .success] },
       .ok true) := by
  have ha : (0:ℚ) < a := lt_of_lt_of_le (by norm_num) h25
  have h0 : ¬(a = 0) := ne_of_gt ha
  have h1 : ¬(a < 25) := not_lt.2 h25
  have h2 : ¬(st.wallet.balance < a) := not_lt.2 hb
  have h3 : ¬(st.wallet.cashback_balance + a * CASHBACK_VALUE < 0) :=
    not_lt.2 (add_nonneg hcb (mul_nonneg ha.le (by norm_num [CASHBACK_VALUE])))
  simp [process_airtime, airtime_charge_wallet, rpc_charge_wallet,
    update_wallet_balance, update_cashback_balance, St.logEvent, St.insertRow,
    h0, h1, h2, h3]

/-- Symbolic description of a wallet-funded airtime purchase that the
provider answers with the pending code "099". -/
theorem airtime_pending_run (st : St) (a : ℚ) (rid : String)
    (h25 : 25 ≤ a) (hb : a ≤ st.wallet.balance) (hcb : 0 ≤ st.wallet.cashback_balance) :
    process_airtime st a "wallet" rid (some ⟨some "099"⟩) =
      ({ wallet := ⟨st.wallet.balance - a, st.wallet.cashback_balance + a * CASHBACK_VALUE⟩,
         ledger := st.ledger ++
           [⟨"Airtime Subscription", "airtime_topup", .pending, a,
             st.wallet.balance, some (st.wallet.balance - a)⟩],
         events := st.events ++ [.charge false "wallet", .providerCall rid,
           .rowInsert .pending] },
       .ok false) := by
  have ha : (0:ℚ) < a := lt_of_lt_of_le (by norm_num) h25
  have h0 : ¬(a = 0) := ne_of_gt ha
  have h1 : ¬(a < 25) := not_lt.2 h25
  have h2 : ¬(st.wallet.balance < a) := not_lt.2 hb
  have h3 : ¬(st.wallet.cashback_balance + a * CASHBACK_VALUE < 0) :=
    not_lt.2 (add_nonneg hcb (mul_nonneg ha.le (by norm_num [CASHBACK_VALUE])))
  simp [process_airtime, airtime_charge_wallet, rpc_charge_wallet,
    update_wallet_balance, update_cashback_balance, St.logEvent, St.insertRow,
    h0, h1, h2, h3]

/-- Symbolic description of a wallet-funded airtime purchase that the
provider answers with any code other than "000" and "099": the charge
is reversed and a failed row recorded at the original balance. -/
theorem airtime_failed_run (st : St) (a : ℚ) (rid : String) (code : String)
    (h25 : 25 ≤ a) (hb : a ≤ st.wallet.balance) (hcb : 0 ≤ st.wallet.cashback_balance)
    (hc0 : code ≠ "000") (hc9 : code ≠ "099") :
    process_airtime st a "wallet" rid (some ⟨some code⟩) =
      ({ wallet := ⟨st.wallet.balance, st.wallet.cashback_balance⟩,
         ledger := st.ledger ++
           [⟨"Airtime Subscription", "airtime_topup", .failed, a,
             st.wallet.balance, some st.wallet.balance⟩],
         events := st.events ++ [.charge false "wallet", .providerCall rid,
           .charge true "wallet", .rowInsert .failed] },
       .ok false) := by
  have ha : (0:ℚ) < a := lt_of_lt_of_le (by norm_num) h25
  have h0 : ¬(a = 0) := ne_of_gt ha
  have h1 : ¬(a < 25) := not_lt.2 h25
  have h2 : ¬(st.wallet.balance < a) := not_lt.2 hb
  have h3 : ¬(st.wallet.cashback_balance + a * CASHBACK_VALUE < 0) :=
    not_lt.2 (add_nonneg hcb (mul_nonneg ha.le (by norm_num [CASHBACK_VALUE])))
  have h4 : ¬(st.wallet.balance - a < -a) := not_lt.2 (by linarith)
  have h5 : ¬(st.wallet.cashback_balance + a * CASHBACK_VALUE + -(a * CASHBACK_VALUE) < 0) :=
    not_lt.2 (by linarith)
  have h6 : ¬(st.wallet.cashback_balance < 0) := not_lt.2 hcb
  simp [process_airtime, airtime_charge_wallet, rpc_charge_wallet,
    update_wallet_balance, update_cashback_balance, St.logEvent, St.insertRow,
    h0, h1, h2, h3, h4, h5, h6, hc0, hc9]

/-- Symbolic description of a wallet-funded airtime purchase where the
provider call yields no usable response (timeout, network failure,
non-200, empty body): the call errors out with the wallet still
debited, no refund and no history row. -/
theorem airtime_none_run (st : St) (a : ℚ) (rid : String)
    (h25 : 25 ≤ a) (hb : a ≤ st.wallet.balance) (hcb : 0 ≤ st.wallet.cashback_balance) :
    process_airtime st a "wallet" rid none =
      ({ wallet := ⟨st.wallet.balance - a, st.wallet.cashback_balance + a * CASHBACK_VALUE⟩,
         ledger := st.ledger,
         events := st.events ++ [.charge false "wallet", .providerCall rid] },
       .error "No response was received from the server") := by
  have ha : (0:ℚ) < a := lt_of_lt_of_le (by norm_num) h25
  have h0 : ¬(a = 0) := ne_of_gt ha
  have h1 : ¬(a < 25) := not_lt.2 h25
  have h2 : ¬(st.wallet.balance < a) := not_lt.2 hb
  have h3 : ¬(st.wallet.cashback_balance + a * CASHBACK_VALUE < 0) :=
    not_lt.2 (add_nonneg hcb (mul_nonneg ha.le (by norm_num [CASHBACK_VALUE])))
  simp [process_airtime, airtime_charge_wallet, rpc_charge_wallet,
    update_wallet_balance, update_cashback_balance, St.logEvent,
    h0, h1, h2, h3]

/-- Symbolic description of a wallet-funded airtime purchase where the
provider body carries no `code` field: same abandoned-debit behaviour
as a missing response. -/
theorem airtime_missing_code_run (st : St) (a : ℚ) (rid : String)
    (h25 : 25 ≤ a) (hb : a ≤ st.wallet.balance) (hcb : 0 ≤ st.wallet.cashback_balance) :
    process_airtime st a "wallet" rid (some ⟨none⟩) =
      ({ wallet := ⟨st.wallet.balance - a, st.wallet.cashback_balance + a * CASHBACK_VALUE⟩,
         ledger := st.ledger,
         events := st.events ++ [.charge false "wallet", .providerCall rid] },
       .error "Invalid response format: missing code") := by
  have ha : (0:ℚ) < a := lt_of_lt_of_le (by norm_num) h25
  have h0 : ¬(a = 0) := ne_of_gt ha
  have h1 : ¬(a < 25) := not_lt.2 h25
  have h2 : ¬(st.wallet.balance < a) := not_lt.2 hb
  have h3 : ¬(st.wallet.cashback_balance + a * CASHBACK_VALUE < 0) :=
    not_lt.2 (add_nonneg hcb (mul_nonneg ha.le (by norm_num [CASHBACK_VALUE])))
  simp [process_airtime, airtime_charge_wallet, rpc_charge_wallet,
    update_wallet_balance, update_cashback_balance, St.logEvent,
    h0, h1, h2, h3]

/-- Symbolic description of a wallet-funded electricity payment
(requested amount `a`, charged amount `electricity_total a` after the 10%
markup) that the provider answers with the success code "000". -/
theorem electricity_success_run (st : St) (a : ℚ) (rid : String)
    (h100 : 100 ≤ a) (hb : electricity_total a ≤ st.wallet.balance)
    (hcb : 0 ≤ st.wallet.cashback_balance) :
    process_electricity st a "wallet" rid (some ⟨some "000"⟩) =
      ({ wallet := ⟨st.wallet.balance - (electricity_total a),
           st.wallet.cashback_balance + (electricity_total a) * CASHBACK_VALUE⟩,
         ledger := st.ledger ++
           [⟨"Electricity Bill Payment", "meter_topup", .success, electricity_total a,
             st.wallet.balance, some (st.wallet.balance - (electricity_total a))⟩,
            ⟨"Cashback Bonus", "cashback", .success, (electricity_total a) * CASHBACK_VALUE,
             st.wallet.balance, some (st.wallet.balance - (electricity_total a))⟩],
         events := st.events ++ [.charge false "wallet", .providerCall rid,
           .rowInsert .success, .rowInsert .success] },
       .ok true) := by
  have ha : (0:ℚ) < a := lt_of_lt_of_le (by norm_num) h100
  have hA : (0:ℚ) < electricity_total a := by unfold electricity_total; linarith
  have h0 : ¬(a = 0) := ne_of_gt ha
  have h1 : ¬(a < 100) := not_lt.2 h100
  have h2 : ¬(st.wallet.balance < electricity_total a) := not_lt.2 hb
  have hAle : ¬(electricity_total a ≤ 0) := not_le.2 hA
  have h3 : ¬(st.wallet.cashback_balance + (electricity_total a) * CASHBACK_VALUE < 0) :=
    not_lt.2 (add_nonneg hcb (mul_nonneg hA.le (by norm_num [CASHBACK_VALUE])))
  simp [process_electricity, electricity_charge_wallet,
    update_wallet_balance, update_cashback_balance, St.logEvent, St.insertRow,
    h0, h1, h2, h3, hAle]

/-- Symbolic description of a wallet-funded electricity payment that the
provider answers with the pending code "099": the debit stays. -/
theorem electricity_pending_run (st : St) (a : ℚ) (rid : String)
    (h100 : 100 ≤ a) (hb : electricity_total a ≤ st.wallet.balance)
    (hcb : 0 ≤ st.wallet.cashback_balance) :
    process_electricity st a "wallet" rid (some ⟨some "099"⟩) =
      ({ wallet := ⟨st.wallet.balance - (electricity_total a),
           st.wallet.cashback_balance + (electricity_total a) * CASHBACK_VALUE⟩,
         ledger := st.ledger ++
           [⟨"Electricity Bill Payment", "meter_topup", .pending, electricity_total a,
             st.wallet.balance, some (st.wallet.balance - (electricity_total a))⟩],
         events := st.events ++ [.charge false "wallet", .providerCall rid,
           .rowInsert .pending] },
       .ok false) := by
  have ha : (0:ℚ) < a := lt_of_lt_of_le (by norm_num) h100
  have hA : (0:ℚ) < electricity_total a := by unfold electricity_total; linarith
  have h0 : ¬(a = 0) := ne_of_gt ha
  have h1 : ¬(a < 100) := not_lt.2 h100
  have h2 : ¬(st.wallet.balance < electricity_total a) := not_lt.2 hb
  have hAle : ¬(electricity_total a ≤ 0) := not_le.2 hA
  have h3 : ¬(st.wallet.cashback_balance + (electricity_total a) * CASHBACK_VALUE < 0) :=
    not_lt.2 (add_nonneg hcb (mul_nonneg hA.le (by norm_num [CASHBACK_VALUE])))
  simp [process_electricity, electricity_charge_wallet,
    update_wallet_balance, update_cashback_balance, St.logEvent, St.insertRow,
    h0, h1, h2, h3, hAle]

/-- Symbolic description of a wallet-funded electricity payment that the
provider answers with any non-"000", non-"099" code: the charge is
reversed and one failed row recorded at the original balance. -/
theorem electricity_failed_run (st : St) (a : ℚ) (rid : String) (code : String)
    (h100 : 100 ≤ a) (hb : electricity_total a ≤ st.wallet.balance)
    (hcb : 0 ≤ st.wallet.cashback_balance)
    (hc0 : code ≠ "000") (hc9 : code ≠ "099") :
    process_electricity st a "wallet" rid (some ⟨some code⟩) =
      ({ wallet := ⟨st.wallet.balance, st.wallet.cashback_balance⟩,
         ledger := st.ledger ++
           [⟨"Electricity Bill Payment", "meter_topup", .failed, electricity_total a,
             st.wallet.balance, some st.wallet.balance⟩],
         events := st.events ++ [.charge false "wallet", .providerCall rid,
           .charge true "wallet", .rowInsert .failed] },
       .ok false) := by
  have ha : (0:ℚ) < a := lt_of_lt_of_le (by norm_num) h100
  have hA : (0:ℚ) < electricity_total a := by unfold electricity_total; linarith
  have h0 : ¬(a = 0) := ne_of_gt ha
  have h1 : ¬(a < 100) := not_lt.2 h100
  have h2 : ¬(st.wallet.balance < electricity_total a) := not_lt.2 hb
  have hAle : ¬(electricity_total a ≤ 0) := not_le.2 hA
  have h3 : ¬(st.wallet.cashback_balance + (electricity_total a) * CASHBACK_VALUE < 0) :=
    not_lt.2 (add_nonneg hcb (mul_nonneg hA.le (by norm_num [CASHBACK_VALUE])))
  have h4 : ¬(st.wallet.balance - (electricity_total a) < -(electricity_total a)) :=
    not_lt.2 (by linarith)
  have h6 : ¬(st.wallet.cashback_balance < 0) := not_lt.2 hcb
  simp [process_electricity, electricity_charge_wallet,
    update_wallet_balance, update_cashback_balance, St.logEvent, St.insertRow,
    h0, h1, h2, h3, h4, h6, hAle, hc0, hc9]

/-- Symbolic description of a wallet-funded electricity payment where
the provider call yields no usable response: the call errors out with
the wallet still debited, no refund and no history row. -/
theorem electricity_none_run (st : St) (a : ℚ) (rid : String)
    (h100 : 100 ≤ a) (hb : electricity_total a ≤ st.wallet.balance)
    (hcb : 0 ≤ st.wallet.cashback_balance) :
    process_electricity st a "wallet" rid none =
      ({ wallet := ⟨st.wallet.balance - (electricity_total a),
           st.wallet.cashback_balance + (electricity_total a) * CASHBACK_VALUE⟩,
         ledger := st.ledger,
         events := st.events ++ [.charge false "wallet", .providerCall rid] },
       .error "No response was received from the server") := by
  have ha : (0:ℚ) < a := lt_of_lt_of_le (by norm_num) h100
  have hA : (0:ℚ) < electricity_total a := by unfold electricity_total; linarith
  have h0 : ¬(a = 0) := ne_of_gt ha
  have h1 : ¬(a < 100) := not_lt.2 h100
  have h2 : ¬(st.wallet.balance < electricity_total a) := not_lt.2 hb
  have hAle : ¬(electricity_total a ≤ 0) := not_le.2 hA
  have h3 : ¬(st.wallet.cashback_balance + (electricity_total a) * CASHBACK_VALUE < 0) :=
    not_lt.2 (add_nonneg hcb (mul_nonneg hA.le (by norm_num [CASHBACK_VALUE])))
  simp [process_electricity, electricity_charge_wallet,
    update_wallet_balance, update_cashback_balance, St.logEvent,
    h0, h1, h2, h3, hAle]

/-- Symbolic description of a wallet-funded Gsub data purchase (charged
amount `price + commission`) whose response status is "failed" or
"TRANSACTION_FAILED": the charge is reversed and one failed row is
recorded with balance_after equal to the original balance. -/
theorem data_best_failed_run (st : St) (price commission : ℚ) (rid : String) (r : GsubResp)
    (h0 : 0 < price + commission) (hb : price + commission ≤ st.wallet.balance)
    (hcb : 0 ≤ st.wallet.cashback_balance)
    (hs : r.status = "failed" ∨ r.status = "TRANSACTION_FAILED") :
    process_data_bundle_best st price commission "wallet" rid (some r) =
      ({ wallet := ⟨st.wallet.balance, st.wallet.cashback_balance⟩,
         ledger := st.ledger ++
           [⟨"Data Subscription", "data_topup", .failed, price + commission,
             st.wallet.balance, some st.wallet.balance⟩],
         events := st.events ++ [.charge false "wallet", .providerCall rid,
           .charge true "wallet", .rowInsert .failed] },
       .ok false) := by
  simp only [process_data_bundle_best]
  set A := price + commission with hA
  have hble : ¬(A ≤ 0) := not_le.2 h0
  have h2 : ¬(st.wallet.balance < A) := not_lt.2 hb
  have h3 : ¬(st.wallet.cashback_balance + A * CASHBACK_VALUE < 0) :=
    not_lt.2 (add_nonneg hcb (mul_nonneg h0.le (by norm_num [CASHBACK_VALUE])))
  have h4 : ¬(st.wallet.balance - A < -A) := not_lt.2 (by linarith)
  have h6 : ¬(st.wallet.cashback_balance < 0) := not_lt.2 hcb
  rcases hs with hs | hs <;>
    simp [data_bundle_charge_wallet, update_wallet_balance, update_cashback_balance,
      St.logEvent, St.insertRow, hble, h2, h3, h4, h6, hs]

/-- Symbolic description of a wallet-funded Gsub data purchase whose
response carries code 200 and a non-failed status: two success rows. -/
theorem data_best_success_run (st : St) (price commission : ℚ) (rid : String) (r : GsubResp)
    (h0 : 0 < price + commission) (hb : price + commission ≤ st.wallet.balance)
    (hcb : 0 ≤ st.wallet.cashback_balance)
    (hs1 : r.status ≠ "failed") (hs2 : r.status ≠ "TRANSACTION_FAILED")
    (hc : r.code = 200) :
    process_data_bundle_best st price commission "wallet" rid (some r) =
      ({ wallet := ⟨st.wallet.balance - (price + commission),
           st.wallet.cashback_balance + (price + commission) * CASHBACK_VALUE⟩,
         ledger := st.ledger ++
           [⟨"Data Subscription", "data_topup", .success, price + commission,
             st.wallet.balance, some (st.wallet.balance - (price + commission))⟩,
            ⟨"Data Bonus", "cashback", .success, (price + commission) * CASHBACK_VALUE,
             st.wallet.balance, some (st.wallet.balance - (price + commission))⟩],
         events := st.events ++ [.charge false "wallet", .providerCall rid,
           .rowInsert .success, .rowInsert .success] },
       .ok true) := by
  simp only [process_data_bundle_best]
  set A := price + commission with hA
  have hble : ¬(A ≤ 0) := not_le.2 h0
  have h2 : ¬(st.wallet.balance < A) := not_lt.2 hb
  have h3 : ¬(st.wallet.cashback_balance + A * CASHBACK_VALUE < 0) :=
    not_lt.2 (add_nonneg hcb (mul_nonneg h0.le (by norm_num [CASHBACK_VALUE])))
  simp [data_bundle_charge_wallet, update_wallet_balance, update_cashback_balance,
    St.logEvent, St.insertRow, hble, h2, h3, hs1, hs2, hc]

/-- Symbolic description of a wallet-funded Gsub data purchase whose
response has neither a failed status, nor code 200, nor status
"reversed": one pending row, the debit stays. -/
theorem data_best_pending_run (st : St) (price commission : ℚ) (rid : String) (r : GsubResp)
    (h0 : 0 < price + commission) (hb : price + commission ≤ st.wallet.balance)
    (hcb : 0 ≤ st.wallet.cashback_balance)
    (hs1 : r.status ≠ "failed") (hs2 : r.status ≠ "TRANSACTION_FAILED")
    (hc : r.code ≠ 200) (hs3 : r.status ≠ "reversed") :
    process_data_bundle_best st price commission "wallet" rid (some r) =
      ({ wallet := ⟨st.wallet.balance - (price + commission),
           st.wallet.cashback_balance + (price + commission) * CASHBACK_VALUE⟩,
         ledger := st.ledger ++
           [⟨"Data Subscription", "data_topup", .pending, price + commission,
             st.wallet.balance, some (st.wallet.balance - (price + commission))⟩],
         events := st.events ++ [.charge false "wallet", .providerCall rid,
           .rowInsert .pending] },
       .ok false) := by
  simp only [process_data_bundle_best]
  set A := price + commission with hA
  have hble : ¬(A ≤ 0) := not_le.2 h0
  have h2 : ¬(st.wallet.balance < A) := not_lt.2 hb
  have h3 : ¬(st.wallet.cashback_balance + A * CASHBACK_VALUE < 0) :=
    not_lt.2 (add_nonneg hcb (mul_nonneg h0.le (by norm_num [CASHBACK_VALUE])))
  simp [data_bundle_charge_wallet, update_wallet_balance, update_cashback_balance,
    St.logEvent, St.insertRow, hble, h2, h3, hs1, hs2, hc, hs3]

/-- Symbolic description of a wallet-funded Gsub data purchase where the
provider call yields no usable response: the call errors out with the
wallet still debited, no refund and no history row. -/
theorem data_best_none_run (st : St) (price commission : ℚ) (rid : String)
    (h0 : 0 < price + commission) (hb : price + commission ≤ st.wallet.balance)
    (hcb : 0 ≤ st.wallet.cashback_balance) :
    process_data_bundle_best st price commission "wallet" rid none =
      ({ wallet := ⟨st.wallet.balance - (price + commission),
           st.wallet.cashback_balance + (price + commission) * CASHBACK_VALUE⟩,
         ledger := st.ledger,
         events := st.events ++ [.charge false "wallet", .providerCall rid] },
       .error "No response was returned from the server.") := by
  simp only [process_data_bundle_best]
  set A := price + commission with hA
  have hble : ¬(A ≤ 0) := not_le.2 h0
  have h2 : ¬(st.wallet.balance < A) := not_lt.2 hb
  have h3 : ¬(st.wallet.cashback_balance + A * CASHBACK_VALUE < 0) :=
    not_lt.2 (add_nonneg hcb (mul_nonneg h0.le (by norm_num [CASHBACK_VALUE])))
  simp [data_bundle_charge_wallet, update_wallet_balance, update_cashback_balance,
    St.logEvent, hble, h2, h3]

/-- Symbolic description of a wallet-funded N3T data purchase (charged
amount `price`) whose response status is "success": two success rows. -/
theorem data_super_success_run (st : St) (price : ℚ) (rid : String) (msg : Option String)
    (h0 : 0 < price) (hb : price ≤ st.wallet.balance)
    (hcb : 0 ≤ st.wallet.cashback_balance) :
    process_data_bundle_super st price "wallet" rid (some ⟨"success", msg⟩) =
      ({ wallet := ⟨st.wallet.balance - price,
           st.wallet.cashback_balance + price * CASHBACK_VALUE⟩,
         ledger := st.ledger ++
           [⟨"Data Subscription", "data_topup", .success, price,
             st.wallet.balance, some (st.wallet.balance - price)⟩,
            ⟨"Data Bonus", "cashback", .success, price * CASHBACK_VALUE,
             st.wallet.balance, some (st.wallet.balance - price)⟩],
         events := st.events ++ [.charge false "wallet", .providerCall rid,
           .rowInsert .success, .rowInsert .success] },
       .ok true) := by
  have hble : ¬(price ≤ 0) := not_le.2 h0
  have h2 : ¬(st.wallet.balance < price) := not_lt.2 hb
  have h3 : ¬(st.wallet.cashback_balance + price * CASHBACK_VALUE < 0) :=
    not_lt.2 (add_nonneg hcb (mul_nonneg h0.le (by norm_num [CASHBACK_VALUE])))
  simp [process_data_bundle_super, data_bundle_charge_wallet,
    update_wallet_balance, update_cashback_balance,
    St.logEvent, St.insertRow, hble, h2, h3]

/-- Symbolic description of a wallet-funded N3T data purchase whose
response status is "pending": the source keeps `payload['status']` at
"success", so the one row recorded for the pending purchase carries
status success, and the debit stays. -/
theorem data_super_pending_run (st : St) (price : ℚ) (rid : String) (msg : Option String)
    (h0 : 0 < price) (hb : price ≤ st.wallet.balance)
    (hcb : 0 ≤ st.wallet.cashback_balance) :
    process_data_bundle_super st price "wallet" rid (some ⟨"pending", msg⟩) =
      ({ wallet := ⟨st.wallet.balance - price,
           st.wallet.cashback_balance + price * CASHBACK_VALUE⟩,
         ledger := st.ledger ++
           [⟨"Data Subscription", "data_topup", .success, price,
             st.wallet.balance, some (st.wallet.balance - price)⟩],
         events := st.events ++ [.charge false "wallet", .providerCall rid,
           .rowInsert .success] },
       .ok false) := by
  have hble : ¬(price ≤ 0) := not_le.2 h0
  have h2 : ¬(st.wallet.balance < price) := not_lt.2 hb
  have h3 : ¬(st.wallet.cashback_balance + price * CASHBACK_VALUE < 0) :=
    not_lt.2 (add_nonneg hcb (mul_nonneg h0.le (by norm_num [CASHBACK_VALUE])))
  simp [process_data_bundle_super, data_bundle_charge_wallet,
    update_wallet_balance, update_cashback_balance,
    St.logEvent, St.insertRow, hble, h2, h3]

/-- Symbolic description of a wallet-funded N3T data purchase whose
response status is "fail", "failed" or "error": refund plus one failed
row at the original balance. -/
theorem data_super_failed_run (st : St) (price : ℚ) (rid : String) (r : N3tResp)
    (h0 : 0 < price) (hb : price ≤ st.wallet.balance)
    (hcb : 0 ≤ st.wallet.cashback_balance)
    (hs : r.status = "fail" ∨ r.status = "failed" ∨ r.status = "error") :
    process_data_bundle_super st price "wallet" rid (some r) =
      ({ wallet := ⟨st.wallet.balance, st.wallet.cashback_balance⟩,
         ledger := st.ledger ++
           [⟨"Data Subscription", "data_topup", .failed, price,
             st.wallet.balance, some st.wallet.balance⟩],
         events := st.events ++ [.charge false "wallet", .providerCall rid,
           .charge true "wallet", .rowInsert .failed] },
       .ok false) := by
  have hble : ¬(price ≤ 0) := not_le.2 h0
  have h2 : ¬(st.wallet.balance < price) := not_lt.2 hb
  have h3 : ¬(st.wallet.cashback_balance + price * CASHBACK_VALUE < 0) :=
    not_lt.2 (add_nonneg hcb (mul_nonneg h0.le (by norm_num [CASHBACK_VALUE])))
  have h4 : ¬(st.wallet.balance - price < -price) := not_lt.2 (by linarith)
  have h6 : ¬(st.wallet.cashback_balance < 0) := not_lt.2 hcb
  have hns : r.status ≠ "success" := by rcases hs with h | h | h <;> simp [h]
  have hnp : r.status ≠ "pending" := by rcases hs with h | h | h <;> simp [h]
  rcases hs with hs | hs | hs <;>
    simp [process_data_bundle_super, data_bundle_charge_wallet,
      update_wallet_balance, update_cashback_balance,
      St.logEvent, St.insertRow, hble, h2, h3, h4, h6, hs]

/-- Symbolic description of a wallet-funded N3T data purchase where the
provider call yields no usable response: the call errors out with the
wallet still debited, no refund and no history row. -/
theorem data_super_none_run (st : St) (price : ℚ) (rid : String)
    (h0 : 0 < price) (hb : price ≤ st.wallet.balance)
    (hcb : 0 ≤ st.wallet.cashback_balance) :
    process_data_bundle_super st price "wallet" rid none =
      ({ wallet := ⟨st.wallet.balance - price,
           st.wallet.cashback_balance + price * CASHBACK_VALUE⟩,
         ledger := st.ledger,
         events := st.events ++ [.charge false "wallet", .providerCall rid] },
       .error "Server failed to return a response.") := by
  have hble : ¬(price ≤ 0) := not_le.2 h0
  have h2 : ¬(st.wallet.balance < price) := not_lt.2 hb
  have h3 : ¬(st.wallet.cashback_balance + price * CASHBACK_VALUE < 0) :=
    not_lt.2 (add_nonneg hcb (mul_nonneg h0.le (by norm_num [CASHBACK_VALUE])))
  simp [process_data_bundle_super, data_bundle_charge_wallet,
    update_wallet_balance, update_cashback_balance,
    St.logEvent, hble, h2, h3]

/-- Symbolic description of a wallet-funded VTPass (regular) data
purchase (charged amount `price + commission`) answered with the
success code "000": two success rows. -/
theorem data_regular_success_run (st : St) (price commission : ℚ) (rid : String)
    (h0 : 0 < price + commission) (hb : price + commission ≤ st.wallet.balance)
    (hcb : 0 ≤ st.wallet.cashback_balance) :
    process_data_bundle_regular st price commission "wallet" rid (some ⟨some "000"⟩) =
      ({ wallet := ⟨st.wallet.balance - (price + commission),
           st.wallet.cashback_balance + (price + commission) * CASHBACK_VALUE⟩,
         ledger := st.ledger ++
           [⟨"Data Subscription", "data_topup", .success, price + commission,
             st.wallet.balance, some (st.wallet.balance - (price + commission))⟩,
            ⟨"Data Bonus", "cashback", .success, (price + commission) * CASHBACK_VALUE,
             st.wallet.balance, some (st.wallet.balance - (price + commission))⟩],
         events := st.events ++ [.charge false "wallet", .providerCall rid,
           .rowInsert .success, .rowInsert .success] },
       .ok true) := by
  simp only [process_data_bundle_regular]
  set A := price + commission with hA
  have hble : ¬(A ≤ 0) := not_le.2 h0
  have h2 : ¬(st.wallet.balance < A) := not_lt.2 hb
  have h3 : ¬(st.wallet.cashback_balance + A * CASHBACK_VALUE < 0) :=
    not_lt.2 (add_nonneg hcb (mul_nonneg h0.le (by norm_num [CASHBACK_VALUE])))
  simp [data_bundle_charge_wallet, update_wallet_balance, update_cashback_balance,
    St.logEvent, St.insertRow, hble, h2, h3]

/-- Symbolic description of a wallet-funded VTPass (regular) data
purchase answered with the pending code "099": one pending row, the
debit stays. -/
theorem data_regular_pending_run (st : St) (price commission : ℚ) (rid : String)
    (h0 : 0 < price + commission) (hb : price + commission ≤ st.wallet.balance)
    (hcb : 0 ≤ st.wallet.cashback_balance) :
    process_data_bundle_regular st price commission "wallet" rid (some ⟨some "099"⟩) =
      ({ wallet := ⟨st.wallet.balance - (price + commission),
           st.wallet.cashback_balance + (price + commission) * CASHBACK_VALUE⟩,
         ledger := st.ledger ++
           [⟨"Data Subscription", "data_topup", .pending, price + commission,
             st.wallet.balance, some (st.wallet.balance - (price + commission))⟩],
         events := st.events ++ [.charge false "wallet", .providerCall rid,
           .rowInsert .pending] },
       .ok false) := by
  simp only [process_data_bundle_regular]
  set A := price + commission with hA
  have hble : ¬(A ≤ 0) := not_le.2 h0
  have h2 : ¬(st.wallet.balance < A) := not_lt.2 hb
  have h3 : ¬(st.wallet.cashback_balance + A * CASHBACK_VALUE < 0) :=
    not_lt.2 (add_nonneg hcb (mul_nonneg h0.le (by norm_num [CASHBACK_VALUE])))
  simp [data_bundle_charge_wallet, update_wallet_balance, update_cashback_balance,
    St.logEvent, St.insertRow, hble, h2, h3]

/-- Symbolic description of a wallet-funded VTPass (regular) data
purchase answered with any non-"000", non-"099" code: refund plus one
failed row at the original balance. -/
theorem data_regular_failed_run (st : St) (price commission : ℚ) (rid : String) (code : String)
    (h0 : 0 < price + commission) (hb : price + commission ≤ st.wallet.balance)
    (hcb : 0 ≤ st.wallet.cashback_balance)
    (hc0 : code ≠ "000") (hc9 : code ≠ "099") :
    process_data_bundle_regular st price commission "wallet" rid (some ⟨some code⟩) =
      ({ wallet := ⟨st.wallet.balance, st.wallet.cashback_balance⟩,
         ledger := st.ledger ++
           [⟨"Data Subscription", "data_topup", .failed, price + commission,
             st.wallet.balance, some st.wallet.balance⟩],
         events := st.events ++ [.charge false "wallet", .providerCall rid,
           .charge true "wallet", .rowInsert .failed] },
       .ok false) := by
  simp only [process_data_bundle_regular]
  set A := price + commission with hA
  have hble : ¬(A ≤ 0) := not_le.2 h0
  have h2 : ¬(st.wallet.balance < A) := not_lt.2 hb
  have h3 : ¬(st.wallet.cashback_balance + A * CASHBACK_VALUE < 0) :=
    not_lt.2 (add_nonneg hcb (mul_nonneg h0.le (by norm_num [CASHBACK_VALUE])))
  have h4 : ¬(st.wallet.balance - A < -A) := not_lt.2 (by linarith)
  have h6 : ¬(st.wallet.cashback_balance < 0) := not_lt.2 hcb
  simp [data_bundle_charge_wallet, update_wallet_balance, update_cashback_balance,
    St.logEvent, St.insertRow, hble, h2, h3, h4, h6, hc0, hc9]

/-- Symbolic description of a wallet-funded VTPass (regular) data
purchase where the provider call yields no usable response: the call
errors out with the wallet still debited, no refund and no history
row. -/
theorem data_regular_none_run (st : St) (price commission : ℚ) (rid : String)
    (h0 : 0 < price + commission) (hb : price + commission ≤ st.wallet.balance)
    (hcb : 0 ≤ st.wallet.cashback_balance) :
    process_data_bundle_regular st price commission "wallet" rid none =
      ({ wallet := ⟨st.wallet.balance - (price + commission),
           st.wallet.cashback_balance + (price + commission) * CASHBACK_VALUE⟩,
         ledger := st.ledger,
         events := st.events ++ [.charge false "wallet", .providerCall rid] },
       .error "No response was received from the server") := by
  simp only [process_data_bundle_regular]
  set A := price + commission with hA
  have hble : ¬(A ≤ 0) := not_le.2 h0
  have h2 : ¬(st.wallet.balance < A) := not_lt.2 hb
  have h3 : ¬(st.wallet.cashback_balance + A * CASHBACK_VALUE < 0) :=
    not_lt.2 (add_nonneg hcb (mul_nonneg h0.le (by norm_num [CASHBACK_VALUE])))
  simp [data_bundle_charge_wallet, update_wallet_balance, update_cashback_balance,
    St.logEvent, hble, h2, h3]

/-- Setting the position right after a list prefix overwrites the
element just appended there. -/
theorem set_append_length {α : Type} (l : List α) (a b : α) :
    (l ++ [a]).set l.length b = l ++ [b] := by
  induction l with
  | nil => rfl
  | cons x xs ih => simp [ih]

/-- Symbolic description of a wallet-funded jamb education purchase
(charged amount `education_total p q cr`) with a verified profile and
the success code "000": the provider is called before the wallet is
charged, the charge passes the inverted deltas of
`education_charge_wallet` (so the wallet balance grows by the total
under the spec-modelled RPC semantics), the pending row is updated in
place to success, and a bonus row is appended. -/
theorem education_success_run (st : St) (p cr : ℚ) (q : Nat) (rid : String)
    (hq1 : 1 ≤ q) (hq10 : q ≤ 10) (hp : 0 < p) (hcr : 0 ≤ cr)
    (hT : education_total p q cr ≤ st.wallet.balance)
    (hcb : 0 ≤ st.wallet.cashback_balance) :
    process_education st "jamb" q p cr "wallet" rid (some ⟨some "000"⟩) (some ⟨some "000"⟩) =
      ({ wallet := ⟨st.wallet.balance + education_total p q cr,
           st.wallet.cashback_balance + education_total p q cr * CASHBACK_VALUE⟩,
         ledger := st.ledger ++
           [⟨"JAMB PIN Purchase", "education", .success, education_total p q cr,
             st.wallet.balance, some (st.wallet.balance - education_total p q cr)⟩,
            ⟨"Isubscribe Points", "cashback", .success, education_total p q cr * CASHBACK_VALUE,
             st.wallet.balance, some (st.wallet.balance - education_total p q cr)⟩],
         events := st.events ++ [.verifyMerchant, .providerCall rid,
           .charge false "wallet", .rowInsert .pending,
           .rowUpdate st.ledger.length .success, .rowInsert .success] },
       .ok true) := by
  have hq0 : (0:ℚ) < (q:ℚ) := lt_of_lt_of_le one_pos (by exact_mod_cast hq1)
  have hT0 : (0:ℚ) < education_total p q cr := by
    unfold education_total
    have h1cr : (0:ℚ) < 1 + cr := by linarith
    exact mul_pos (mul_pos hp hq0) h1cr
  have hq1' : ¬(q < 1) := not_lt.2 hq1
  have hq10' : ¬(10 < q) := not_lt.2 hq10
  have hple : ¬(p ≤ 0) := not_le.2 hp
  have h2 : ¬(st.wallet.balance < education_total p q cr) := not_lt.2 hT
  have hble : ¬(education_total p q cr ≤ 0) := not_le.2 hT0
  have h4 : ¬(st.wallet.balance < -education_total p q cr) := not_lt.2 (by linarith)
  have h3 : ¬(st.wallet.cashback_balance + education_total p q cr * CASHBACK_VALUE < 0) :=
    not_lt.2 (add_nonneg hcb (mul_nonneg hT0.le (by norm_num [CASHBACK_VALUE])))
  simp [process_education, education_charge_wallet, education_title,
    update_wallet_balance, update_cashback_balance,
    St.logEvent, St.insertRow, St.updateRow, set_append_length,
    hq1', hq10', hple, h2, h3, h4, hble]

/-- Symbolic description of a wallet-funded jamb education purchase with
a verified profile and the pending code "099": the source refunds the
charge on pending (unlike every other category) and the pending row is
rewritten in place, so both balances return to their initial values. -/
theorem education_pending_run (st : St) (p cr : ℚ) (q : Nat) (rid : String)
    (hq1 : 1 ≤ q) (hq10 : q ≤ 10) (hp : 0 < p) (hcr : 0 ≤ cr)
    (hT : education_total p q cr ≤ st.wallet.balance)
    (hcb : 0 ≤ st.wallet.cashback_balance) :
    process_education st "jamb" q p cr "wallet" rid (some ⟨some "000"⟩) (some ⟨some "099"⟩) =
      ({ wallet := ⟨st.wallet.balance, st.wallet.cashback_balance⟩,
         ledger := st.ledger ++
           [⟨"JAMB PIN Purchase", "education", .pending, education_total p q cr,
             st.wallet.balance, some (st.wallet.balance - education_total p q cr)⟩],
         events := st.events ++ [.verifyMerchant, .providerCall rid,
           .charge false "wallet", .rowInsert .pending,
           .charge true "wallet", .rowUpdate st.ledger.length .pending] },
       .ok false) := by
  have hq0 : (0:ℚ) < (q:ℚ) := lt_of_lt_of_le one_pos (by exact_mod_cast hq1)
  have hT0 : (0:ℚ) < education_total p q cr := by
    unfold education_total
    have h1cr : (0:ℚ) < 1 + cr := by linarith
    exact mul_pos (mul_pos hp hq0) h1cr
  have hq1' : ¬(q < 1) := not_lt.2 hq1
  have hq10' : ¬(10 < q) := not_lt.2 hq10
  have hple : ¬(p ≤ 0) := not_le.2 hp
  have h2 : ¬(st.wallet.balance < education_total p q cr) := not_lt.2 hT
  have hble : ¬(education_total p q cr ≤ 0) := not_le.2 hT0
  have h4 : ¬(st.wallet.balance < -education_total p q cr) := not_lt.2 (by linarith)
  have h3 : ¬(st.wallet.cashback_balance + education_total p q cr * CASHBACK_VALUE < 0) :=
    not_lt.2 (add_nonneg hcb (mul_nonneg hT0.le (by norm_num [CASHBACK_VALUE])))
  have h5 : ¬(st.wallet.balance + education_total p q cr < education_total p q cr) :=
    not_lt.2 (by linarith)
  have h6 : ¬(st.wallet.cashback_balance < 0) := not_lt.2 hcb
  simp [process_education, education_charge_wallet, education_title,
    update_wallet_balance, update_cashback_balance,
    St.logEvent, St.insertRow, St.updateRow, set_append_length,
    hq1', hq10', hple, h2, h3, h4, h5, h6, hble]

/-- Symbolic description of a wallet-funded jamb education purchase with
a verified profile and a failing provider code: refund, and the pending
row rewritten in place to failed with balance_after reset to the
original balance. -/
theorem education_failed_run (st : St) (p cr : ℚ) (q : Nat) (rid : String) (code : String)
    (hq1 : 1 ≤ q) (hq10 : q ≤ 10) (hp : 0 < p) (hcr : 0 ≤ cr)
    (hT : education_total p q cr ≤ st.wallet.balance)
    (hcb : 0 ≤ st.wallet.cashback_balance)
    (hc0 : code ≠ "000") (hc9 : code ≠ "099") :
    process_education st "jamb" q p cr "wallet" rid (some ⟨some "000"⟩) (some ⟨some code⟩) =
      ({ wallet := ⟨st.wallet.balance, st.wallet.cashback_balance⟩,
         ledger := st.ledger ++
           [⟨"JAMB PIN Purchase", "education", .failed, education_total p q cr,
             st.wallet.balance, some st.wallet.balance⟩],
         events := st.events ++ [.verifyMerchant, .providerCall rid,
           .charge false "wallet", .rowInsert .pending,
           .charge true "wallet", .rowUpdate st.ledger.length .failed] },
       .ok false) := by
  have hq0 : (0:ℚ) < (q:ℚ) := lt_of_lt_of_le one_pos (by exact_mod_cast hq1)
  have hT0 : (0:ℚ) < education_total p q cr := by
    unfold education_total
    have h1cr : (0:ℚ) < 1 + cr := by linarith
    exact mul_pos (mul_pos hp hq0) h1cr
  have hq1' : ¬(q < 1) := not_lt.2 hq1
  have hq10' : ¬(10 < q) := not_lt.2 hq10
  have hple : ¬(p ≤ 0) := not_le.2 hp
  have h2 : ¬(st.wallet.balance < education_total p q cr) := not_lt.2 hT
  have hble : ¬(education_total p q cr ≤ 0) := not_le.2 hT0
  have h4 : ¬(st.wallet.balance < -education_total p q cr) := not_lt.2 (by linarith)
  have h3 : ¬(st.wallet.cashback_balance + education_total p q cr * CASHBACK_VALUE < 0) :=
    not_lt.2 (add_nonneg hcb (mul_nonneg hT0.le (by norm_num [CASHBACK_VALUE])))
  have h5 : ¬(st.wallet.balance + education_total p q cr < education_total p q cr) :=
    not_lt.2 (by linarith)
  have h6 : ¬(st.wallet.cashback_balance < 0) := not_lt.2 hcb
  simp [process_education, education_charge_wallet, education_title,
    update_wallet_balance, update_cashback_balance,
    St.logEvent, St.insertRow, St.updateRow, set_append_length,
    hq1', hq10', hple, h2, h3, h4, h5, h6, hble, hc0, hc9]

/-- Symbolic description of a wallet-funded jamb education purchase with
a verified profile where the provider call yields no usable response:
because education calls the provider before charging, nothing has been
debited yet; the call errors out with wallet and ledger untouched. -/
theorem education_none_run (st : St) (p cr : ℚ) (q : Nat) (rid : String)
    (hq1 : 1 ≤ q) (hq10 : q ≤ 10) (hp : 0 < p)
    (hT : education_total p q cr ≤ st.wallet.balance) :
    process_education st "jamb" q p cr "wallet" rid (some ⟨some "000"⟩) none =
      ({ wallet := st.wallet,
         ledger := st.ledger,
         events := st.events ++ [.verifyMerchant, .providerCall rid] },
       .error "No response received from education service provider") := by
  have hq1' : ¬(q < 1) := not_lt.2 hq1
  have hq10' : ¬(10 < q) := not_lt.2 hq10
  have hple : ¬(p ≤ 0) := not_le.2 hp
  have h2 : ¬(st.wallet.balance < education_total p q cr) := not_lt.2 hT
  simp [process_education, St.logEvent, hq1', hq10', hple, h2]

/-- Symbolic description of a wallet-funded electricity payment whose
provider body carries no `code` field: abandoned debit, as with a
missing response. -/
theorem electricity_missing_code_run (st : St) (a : ℚ) (rid : String)
    (h100 : 100 ≤ a) (hb : electricity_total a ≤ st.wallet.balance)
    (hcb : 0 ≤ st.wallet.cashback_balance) :
    process_electricity st a "wallet" rid (some ⟨none⟩) =
      ({ wallet := ⟨st.wallet.balance - electricity_total a,
           st.wallet.cashback_balance + electricity_total a * CASHBACK_VALUE⟩,
         ledger := st.ledger,
         events := st.events ++ [.charge false "wallet", .providerCall rid] },
       .error "Invalid response format: missing code") := by
  have ha : (0:ℚ) < a := lt_of_lt_of_le (by norm_num) h100
  have hA : (0:ℚ) < electricity_total a := by unfold electricity_total; linarith
  have h0 : ¬(a = 0) := ne_of_gt ha
  have h1 : ¬(a < 100) := not_lt.2 h100
  have h2 : ¬(st.wallet.balance < electricity_total a) := not_lt.2 hb
  have hAle : ¬(electricity_total a ≤ 0) := not_le.2 hA
  have h3 : ¬(st.wallet.cashback_balance + electricity_total a * CASHBACK_VALUE < 0) :=
    not_lt.2 (add_nonneg hcb (mul_nonneg hA.le (by norm_num [CASHBACK_VALUE])))
  simp [process_electricity, electricity_charge_wallet,
    update_wallet_balance, update_cashback_balance, St.logEvent,
    h0, h1, h2, h3, hAle]

/-- Symbolic description of a wallet-funded VTPass (regular) data
purchase whose provider body carries no `code` field: abandoned debit. -/
theorem data_regular_missing_code_run (st : St) (price commission : ℚ) (rid : String)
    (h0 : 0 < price + commission) (hb : price + commission ≤ st.wallet.balance)
    (hcb : 0 ≤ st.wallet.cashback_balance) :
    process_data_bundle_regular st price commission "wallet" rid (some ⟨none⟩) =
      ({ wallet := ⟨st.wallet.balance - (price + commission),
           st.wallet.cashback_balance + (price + commission) * CASHBACK_VALUE⟩,
         ledger := st.ledger,
         events := st.events ++ [.charge false "wallet", .providerCall rid] },
       .error "Invalid response format: missing code") := by
  simp only [process_data_bundle_regular]
  set A := price + commission with hA
  have hble : ¬(A ≤ 0) := not_le.2 h0
  have h2 : ¬(st.wallet.balance < A) := not_lt.2 hb
  have h3 : ¬(st.wallet.cashback_balance + A * CASHBACK_VALUE < 0) :=
    not_lt.2 (add_nonneg hcb (mul_nonneg h0.le (by norm_num [CASHBACK_VALUE])))
  simp [data_bundle_charge_wallet, update_wallet_balance, update_cashback_balance,
    St.logEvent, hble, h2, h3]

/-- Symbolic description of a wallet-funded Gsub data purchase whose
response status is "reversed" (and neither failed, nor code 200): one
reversed row recorded at the original balance, but no refund is issued
(the debit stays despite the row claiming the original balance). -/
theorem data_best_reversed_run (st : St) (price commission : ℚ) (rid : String) (r : GsubResp)
    (h0 : 0 < price + commission) (hb : price + commission ≤ st.wallet.balance)
    (hcb : 0 ≤ st.wallet.cashback_balance)
    (hs1 : r.status = "reversed") (hc : r.code ≠ 200) :
    process_data_bundle_best st price commission "wallet" rid (some r) =
      ({ wallet := ⟨st.wallet.balance - (price + commission),
           st.wallet.cashback_balance + (price + commission) * CASHBACK_VALUE⟩,
         ledger := st.ledger ++
           [⟨"Data Subscription", "data_topup", .reversed, price + commission,
             st.wallet.balance, some st.wallet.balance⟩],
         events := st.events ++ [.charge false "wallet", .providerCall rid,
           .rowInsert .reversed] },
       .ok false) := by
  simp only [process_data_bundle_best]
  set A := price + commission with hA
  have hble : ¬(A ≤ 0) := not_le.2 h0
  have h2 : ¬(st.wallet.balance < A) := not_lt.2 hb
  have h3 : ¬(st.wallet.cashback_balance + A * CASHBACK_VALUE < 0) :=
    not_lt.2 (add_nonneg hcb (mul_nonneg h0.le (by norm_num [CASHBACK_VALUE])))
  simp [data_bundle_charge_wallet, update_wallet_balance, update_cashback_balance,
    St.logEvent, St.insertRow, hble, h2, h3, hs1, hc]

/-- Symbolic description of a wallet-funded N3T data purchase whose
response status is none of the recognised strings: the source raises
an unknown error leaving the debit in place with no row and no refund. -/
theorem data_super_unknown_run (st : St) (price : ℚ) (rid : String) (r : N3tResp)
    (h0 : 0 < price) (hb : price ≤ st.wallet.balance)
    (hcb : 0 ≤ st.wallet.cashback_balance)
    (hs1 : r.status ≠ "success") (hs2 : r.status ≠ "pending")
    (hs3 : r.status ≠ "fail") (hs4 : r.status ≠ "failed") (hs5 : r.status ≠ "error") :
    process_data_bundle_super st price "wallet" rid (some r) =
      ({ wallet := ⟨st.wallet.balance - price,
           st.wallet.cashback_balance + price * CASHBACK_VALUE⟩,
         ledger := st.ledger,
         events := st.events ++ [.charge false "wallet", .providerCall rid] },
       .error "An unknown occured while trying to process request.") := by
  have hble : ¬(price ≤ 0) := not_le.2 h0
  have h2 : ¬(st.wallet.balance < price) := not_lt.2 hb
  have h3 : ¬(st.wallet.cashback_balance + price * CASHBACK_VALUE < 0) :=
    not_lt.2 (add_nonneg hcb (mul_nonneg h0.le (by norm_num [CASHBACK_VALUE])))
  simp [process_data_bundle_super, data_bundle_charge_wallet,
    update_wallet_balance, update_cashback_balance,
    St.logEvent, hble, h2, h3, hs1, hs2, hs3, hs4, hs5]

/-- Symbolic description of a wallet-funded jamb education purchase with
a verified profile whose provider body carries no `code` field: the
provider was called before any charge, so nothing is debited and no
row is written. -/
theorem education_missing_code_run (st : St) (p cr : ℚ) (q : Nat) (rid : String)
    (hq1 : 1 ≤ q) (hq10 : q ≤ 10) (hp : 0 < p)
    (hT : education_total p q cr ≤ st.wallet.balance) :
    process_education st "jamb" q p cr "wallet" rid (some ⟨some "000"⟩) (some ⟨none⟩) =
      ({ wallet := st.wallet,
         ledger := st.ledger,
         events := st.events ++ [.verifyMerchant, .providerCall rid] },
       .error "Invalid response format: missing code") := by
  have hq1' : ¬(q < 1) := not_lt.2 hq1
  have hq10' : ¬(10 < q) := not_lt.2 hq10
  have hple : ¬(p ≤ 0) := not_le.2 hp
  have h2 : ¬(st.wallet.balance < education_total p q cr) := not_lt.2 hT
  simp [process_education, St.logEvent, hq1', hq10', hple, h2]

/-- Taking two elements past a list prefix isolates the two events
appended right after it. -/
theorem take_two_after {α : Type} (l : List α) (e1 e2 : α) (t : List α) :
    (l ++ e1 :: e2 :: t).take (l.length + 2) = l ++ [e1, e2] := by
  induction l with
  | nil => simp
  | cons x xs ih => simp [ih]

end RunLemmas

section Claims

/-- C1, counterexample.  The claim asserts that for every category a
provider failure yields a failed ledger row whose `balance_after`
equals `balance_before`.  For a cashback-funded Gsub data purchase
(wallet balance 500, cashback balance 2000, plan price 300 +
commission 100, provider status "failed") the source writes the failed
row with `balance_after = None` (src/mobile/data_bundle.py line 278)
while `balance_before = 500`, so the row violates
`balance_after = balance_before` even though both balances are in fact
restored. -/
theorem C1_counterexample :
    (process_data_bundle_best ⟨⟨500, 2000⟩, [], []⟩ 300 100 "cashback" "r"
        (some ⟨0, "failed"⟩)).1.ledger =
      [⟨"Data Subscription", "data_topup", .failed, 400, 500, none⟩] ∧
    (none : Option ℚ) ≠ some 500 ∧
    (process_data_bundle_best ⟨⟨500, 2000⟩, [], []⟩ 300 100 "cashback" "r"
        (some ⟨0, "failed"⟩)).1.wallet = ⟨500, 2000⟩ := by
  refine ⟨?_, by simp, ?_⟩ <;>
    norm_num +decide [process_data_bundle_best, data_bundle_charge_wallet,
      update_wallet_balance, update_cashback_balance, St.logEvent, St.insertRow,
      CASHBACK_VALUE]

/-- C1 (amended): in every category, when the provider returns a failed
outcome code after the charge, the charge is exactly reversed before
the call returns (the wallet is restored to its pre-reservation state)
and exactly one failed ledger row is recorded with
`balance_before = balance_after =` the pre-reservation wallet balance —
except that the data category records `balance_after = None` on the
failed row when funded from cashback (see the counterexample); the
wallet-funded case proved here writes `balance_after = balance_before`
in all six purchase paths. -/
theorem C1_failed_refund_and_ledger :
    (∀ (st : St) (a : ℚ) (rid code : String),
      25 ≤ a → a ≤ st.wallet.balance → 0 ≤ st.wallet.cashback_balance →
      code ≠ "000" → code ≠ "099" →
      (process_airtime st a "wallet" rid (some ⟨some code⟩)).1.wallet = st.wallet ∧
      (process_airtime st a "wallet" rid (some ⟨some code⟩)).1.ledger =
        st.ledger ++ [⟨"Airtime Subscription", "airtime_topup", .failed, a,
          st.wallet.balance, some st.wallet.balance⟩]) ∧
    (∀ (st : St) (a : ℚ) (rid code : String),
      100 ≤ a → electricity_total a ≤ st.wallet.balance → 0 ≤ st.wallet.cashback_balance →
      code ≠ "000" → code ≠ "099" →
      (process_electricity st a "wallet" rid (some ⟨some code⟩)).1.wallet = st.wallet ∧
      (process_electricity st a "wallet" rid (some ⟨some code⟩)).1.ledger =
        st.ledger ++ [⟨"Electricity Bill Payment", "meter_topup", .failed, electricity_total a,
          st.wallet.balance, some st.wallet.balance⟩]) ∧
    (∀ (st : St) (price commission : ℚ) (rid : String) (r : GsubResp),
      0 < price + commission → price + commission ≤ st.wallet.balance →
      0 ≤ st.wallet.cashback_balance →
      r.status = "failed" ∨ r.status = "TRANSACTION_FAILED" →
      (process_data_bundle_best st price commission "wallet" rid (some r)).1.wallet = st.wallet ∧
      (process_data_bundle_best st price commission "wallet" rid (some r)).1.ledger =
        st.ledger ++ [⟨"Data Subscription", "data_topup", .failed, price + commission,
          st.wallet.balance, some st.wallet.balance⟩]) ∧
    (∀ (st : St) (price : ℚ) (rid : String) (r : N3tResp),
      0 < price → price ≤ st.wallet.balance → 0 ≤ st.wallet.cashback_balance →
      r.status = "fail" ∨ r.status = "failed" ∨ r.status = "error" →
      (process_data_bundle_super st price "wallet" rid (some r)).1.wallet = st.wallet ∧
      (process_data_bundle_super st price "wallet" rid (some r)).1.ledger =
        st.ledger ++ [⟨"Data Subscription", "data_topup", .failed, price,
          st.wallet.balance, some st.wallet.balance⟩]) ∧
    (∀ (st : St) (price commission : ℚ) (rid code : String),
      0 < price + commission → price + commission ≤ st.wallet.balance →
      0 ≤ st.wallet.cashback_balance → code ≠ "000" → code ≠ "099" →
      (process_data_bundle_regular st price commission "wallet" rid (some ⟨some code⟩)).1.wallet
        = st.wallet ∧
      (process_data_bundle_regular st price commission "wallet" rid (some ⟨some code⟩)).1.ledger =
        st.ledger ++ [⟨"Data Subscription", "data_topup", .failed, price + commission,
          st.wallet.balance, some st.wallet.balance⟩]) ∧
    (∀ (st : St) (p cr : ℚ) (q : Nat) (rid code : String),
      1 ≤ q → q ≤ 10 → 0 < p → 0 ≤ cr →
      education_total p q cr ≤ st.wallet.balance → 0 ≤ st.wallet.cashback_balance →
      code ≠ "000" → code ≠ "099" →
      (process_education st "jamb" q p cr "wallet" rid
          (some ⟨some "000"⟩) (some ⟨some code⟩)).1.wallet = st.wallet ∧
      (process_education st "jamb" q p cr "wallet" rid
          (some ⟨some "000"⟩) (some ⟨some code⟩)).1.ledger =
        st.ledger ++ [⟨"JAMB PIN Purchase", "education", .failed, education_total p q cr,
          st.wallet.balance, some st.wallet.balance⟩]) := by
  refine ⟨?_, ?_, ?_, ?_, ?_, ?_⟩
  · intro st a rid code h25 hb hcb hc0 hc9
    rw [airtime_failed_run st a rid code h25 hb hcb hc0 hc9]
    exact ⟨rfl, rfl⟩
  · intro st a rid code h100 hb hcb hc0 hc9
    rw [electricity_failed_run st a rid code h100 hb hcb hc0 hc9]
    exact ⟨rfl, rfl⟩
  · intro st price commission rid r h0 hb hcb hs
    rw [data_best_failed_run st price commission rid r h0 hb hcb hs]
    exact ⟨rfl, rfl⟩
  · intro st price rid r h0 hb hcb hs
    rw [data_super_failed_run st price rid r h0 hb hcb hs]
    exact ⟨rfl, rfl⟩
  · intro st price commission rid code h0 hb hcb hc0 hc9
    rw [data_regular_failed_run st price commission rid code h0 hb hcb hc0 hc9]
    exact ⟨rfl, rfl⟩
  · intro st p cr q rid code hq1 hq10 hp hcr hT hcb hc0 hc9
    rw [education_failed_run st p cr q rid code hq1 hq10 hp hcr hT hcb hc0 hc9]
    exact ⟨rfl, rfl⟩

/-- C1, witness: the airtime conjunct at wallet balance 1000, amount
500, failure code "016": balance restored to 1000 and one failed row
recorded at balance 1000. -/
theorem C1_witness :
    (process_airtime ⟨⟨1000, 0⟩, [], []⟩ 500 "wallet" "r" (some ⟨some "016"⟩)).1.wallet = ⟨1000, 0⟩ ∧
    (process_airtime ⟨⟨1000, 0⟩, [], []⟩ 500 "wallet" "r" (some ⟨some "016"⟩)).1.ledger =
      [⟨"Airtime Subscription", "airtime_topup", .failed, 500, 1000, some 1000⟩] := by
  have h := C1_failed_refund_and_ledger.1 ⟨⟨1000, 0⟩, [], []⟩ 500 "r" "016"
    (by norm_num) (by norm_num) (by norm_num) (by decide) (by decide)
  simpa using h

/-- C2, counterexample.  The claim asserts a provider timeout / missing
response triggers an immediate refund and a failed ledger row.  In the
source every category raises an exception when the provider helper
returns `None` (src/mobile/airtime.py lines 157-158) after the wallet
was already charged: wallet balance 500, airtime amount 200, provider
times out ⇒ the call errors out with the balance still at 300 (no
refund) and an empty ledger (no failed row). -/
theorem C2_counterexample :
    process_airtime ⟨⟨500, 0⟩, [], []⟩ 200 "wallet" "r" none =
      (⟨⟨300, 2⟩, [], [.charge false "wallet", .providerCall "r"]⟩,
       .error "No response was received from the server") ∧
    (300 : ℚ) ≠ 500 := by
  constructor
  · norm_num +decide [process_airtime, airtime_charge_wallet, rpc_charge_wallet,
      update_wallet_balance, update_cashback_balance, St.logEvent, CASHBACK_VALUE]
  · norm_num

/-- C2 (amended): a provider-call timeout, network failure, or
malformed/empty provider response is never interpreted as Pending —
the purchase aborts with a raised error and no ledger row of any kind
is written — but contrary to the original claim no refund is issued
either: in airtime, data and electricity the wallet is left debited by
the charged amount with no failed row, and in education (where the
provider is called before the charge) the wallet is left untouched. -/
theorem C2_provider_unavailable :
    (∀ (st : St) (a : ℚ) (rid : String),
      25 ≤ a → a ≤ st.wallet.balance → 0 ≤ st.wallet.cashback_balance →
      process_airtime st a "wallet" rid none =
        ({ wallet := ⟨st.wallet.balance - a, st.wallet.cashback_balance + a * CASHBACK_VALUE⟩,
           ledger := st.ledger,
           events := st.events ++ [.charge false "wallet", .providerCall rid] },
         .error "No response was received from the server")) ∧
    (∀ (st : St) (a : ℚ) (rid : String),
      25 ≤ a → a ≤ st.wallet.balance → 0 ≤ st.wallet.cashback_balance →
      process_airtime st a "wallet" rid (some ⟨none⟩) =
        ({ wallet := ⟨st.wallet.balance - a, st.wallet.cashback_balance + a * CASHBACK_VALUE⟩,
           ledger := st.ledger,
           events := st.events ++ [.charge false "wallet", .providerCall rid] },
         .error "Invalid response format: missing code")) ∧
    (∀ (st : St) (a : ℚ) (rid : String),
      100 ≤ a → electricity_total a ≤ st.wallet.balance → 0 ≤ st.wallet.cashback_balance →
      process_electricity st a "wallet" rid none =
        ({ wallet := ⟨st.wallet.balance - electricity_total a,
             st.wallet.cashback_balance + electricity_total a * CASHBACK_VALUE⟩,
           ledger := st.ledger,
           events := st.events ++ [.charge false "wallet", .providerCall rid] },
         .error "No response was received from the server")) ∧
    (∀ (st : St) (price commission : ℚ) (rid : String),
      0 < price + commission → price + commission ≤ st.wallet.balance →
      0 ≤ st.wallet.cashback_balance →
      process_data_bundle_best st price commission "wallet" rid none =
        ({ wallet := ⟨st.wallet.balance - (price + commission),
             st.wallet.cashback_balance + (price + commission) * CASHBACK_VALUE⟩,
           ledger := st.ledger,
           events := st.events ++ [.charge false "wallet", .providerCall rid] },
         .error "No response was returned from the server.")) ∧
    (∀ (st : St) (price : ℚ) (rid : String),
      0 < price → price ≤ st.wallet.balance → 0 ≤ st.wallet.cashback_balance →
      process_data_bundle_super st price "wallet" rid none =
        ({ wallet := ⟨st.wallet.balance - price,
             st.wallet.cashback_balance + price * CASHBACK_VALUE⟩,
           ledger := st.ledger,
           events := st.events ++ [.charge false "wallet", .providerCall rid] },
         .error "Server failed to return a response.")) ∧
    (∀ (st : St) (price commission : ℚ) (rid : String),
      0 < price + commission → price + commission ≤ st.wallet.balance →
      0 ≤ st.wallet.cashback_balance →
      process_data_bundle_regular st price commission "wallet" rid none =
        ({ wallet := ⟨st.wallet.balance - (price + commission),
             st.wallet.cashback_balance + (price + commission) * CASHBACK_VALUE⟩,
           ledger := st.ledger,
           events := st.events ++ [.charge false "wallet", .providerCall rid] },
         .error "No response was received from the server")) ∧
    (∀ (st : St) (p cr : ℚ) (q : Nat) (rid : String),
      1 ≤ q → q ≤ 10 → 0 < p → education_total p q cr ≤ st.wallet.balance →
      process_education st "jamb" q p cr "wallet" rid (some ⟨some "000"⟩) none =
        ({ wallet := st.wallet, ledger := st.ledger,
           events := st.events ++ [.verifyMerchant, .providerCall rid] },
         .error "No response received from education service provider")) :=
  ⟨airtime_none_run, airtime_missing_code_run, electricity_none_run,
   data_best_none_run, data_super_none_run, data_regular_none_run,
   fun st p cr q rid hq1 hq10 hp hT => education_none_run st p cr q rid hq1 hq10 hp hT⟩

/-- C2, witness: the airtime conjunct at wallet balance 500 and amount
200: the run errors with the balance left at 300 and no ledger row. -/
theorem C2_witness :
    process_airtime ⟨⟨500, 0⟩, [], []⟩ 200 "wallet" "w2" none =
      (⟨⟨300, 2⟩, [], [.charge false "wallet", .providerCall "w2"]⟩,
       .error "No response was received from the server") := by
  have h := C2_provider_unavailable.1 ⟨⟨500, 0⟩, [], []⟩ 200 "w2"
    (by norm_num) (by norm_num) (by norm_num)
  rw [h]
  norm_num [CASHBACK_VALUE]

/-- C3, counterexample.  The claim asserts that on a provider pending
code the reservation is never released.  The education path refunds the
charge on code "099" (src/mobile/education.py lines 396-399): wallet
balance 1000, jamb purchase totalling 550, provider answers "099" ⇒
one pending row, but an explicit refund charge is issued and the
balance ends at 1000, not at the debited 450. -/
theorem C3_counterexample :
    process_education ⟨⟨1000, 0⟩, [], []⟩ "jamb" 1 500 (1/10) "wallet" "r"
        (some ⟨some "000"⟩) (some ⟨some "099"⟩) =
      (⟨⟨1000, 0⟩,
        [⟨"JAMB PIN Purchase", "education", .pending, 550, 1000, some 450⟩],
        [.verifyMerchant, .providerCall "r", .charge false "wallet",
         .rowInsert .pending, .charge true "wallet", .rowUpdate 0 .pending]⟩,
       .ok false) ∧
    (1000 : ℚ) ≠ 1000 - 550 := by
  constructor
  · norm_num +decide [process_education, education_charge_wallet, education_title,
      education_total, update_wallet_balance, update_cashback_balance,
      St.logEvent, St.insertRow, St.updateRow, CASHBACK_VALUE]
  · norm_num

/-- C3 (amended): when the provider returns its pending code, exactly
one ledger row for the purchase is written and no cashback-bonus row
is written, and in the airtime, electricity and data categories the
reservation is kept (the wallet remains at the debited value, with no
refund charge issued); however the N3T "super" data path records its
pending purchase row with status success instead of pending, and the
education path refunds the reservation on pending (restoring both
balances) and rewrites its pending row in place. -/
theorem C3_pending_behaviour :
    (∀ (st : St) (a : ℚ) (rid : String),
      25 ≤ a → a ≤ st.wallet.balance → 0 ≤ st.wallet.cashback_balance →
      process_airtime st a "wallet" rid (some ⟨some "099"⟩) =
        ({ wallet := ⟨st.wallet.balance - a, st.wallet.cashback_balance + a * CASHBACK_VALUE⟩,
           ledger := st.ledger ++
             [⟨"Airtime Subscription", "airtime_topup", .pending, a,
               st.wallet.balance, some (st.wallet.balance - a)⟩],
           events := st.events ++ [.charge false "wallet", .providerCall rid,
             .rowInsert .pending] },
         .ok false)) ∧
    (∀ (st : St) (a : ℚ) (rid : String),
      100 ≤ a → electricity_total a ≤ st.wallet.balance → 0 ≤ st.wallet.cashback_balance →
      process_electricity st a "wallet" rid (some ⟨some "099"⟩) =
        ({ wallet := ⟨st.wallet.balance - electricity_total a,
             st.wallet.cashback_balance + electricity_total a * CASHBACK_VALUE⟩,
           ledger := st.ledger ++
             [⟨"Electricity Bill Payment", "meter_topup", .pending, electricity_total a,
               st.wallet.balance, some (st.wallet.balance - electricity_total a)⟩],
           events := st.events ++ [.charge false "wallet", .providerCall rid,
             .rowInsert .pending] },
         .ok false)) ∧
    (∀ (st : St) (price commission : ℚ) (rid : String) (r : GsubResp),
      0 < price + commission → price + commission ≤ st.wallet.balance →
      0 ≤ st.wallet.cashback_balance →
      r.status ≠ "failed" → r.status ≠ "TRANSACTION_FAILED" →
      r.code ≠ 200 → r.status ≠ "reversed" →
      process_data_bundle_best st price commission "wallet" rid (some r) =
        ({ wallet := ⟨st.wallet.balance - (price + commission),
             st.wallet.cashback_balance + (price + commission) * CASHBACK_VALUE⟩,
           ledger := st.ledger ++
             [⟨"Data Subscription", "data_topup", .pending, price + commission,
               st.wallet.balance, some (st.wallet.balance - (price + commission))⟩],
           events := st.events ++ [.charge false "wallet", .providerCall rid,
             .rowInsert .pending] },
         .ok false)) ∧
    (∀ (st : St) (price commission : ℚ) (rid : String),
      0 < price + commission → price + commission ≤ st.wallet.balance →
      0 ≤ st.wallet.cashback_balance →
      process_data_bundle_regular st price commission "wallet" rid (some ⟨some "099"⟩) =
        ({ wallet := ⟨st.wallet.balance - (price + commission),
             st.wallet.cashback_balance + (price + commission) * CASHBACK_VALUE⟩,
           ledger := st.ledger ++
             [⟨"Data Subscription", "data_topup", .pending, price + commission,
               st.wallet.balance, some (st.wallet.balance - (price + commission))⟩],
           events := st.events ++ [.charge false "wallet", .providerCall rid,
             .rowInsert .pending] },
         .ok false)) ∧
    (∀ (st : St) (price : ℚ) (rid : String) (msg : Option String),
      0 < price → price ≤ st.wallet.balance → 0 ≤ st.wallet.cashback_balance →
      process_data_bundle_super st price "wallet" rid (some ⟨"pending", msg⟩) =
        ({ wallet := ⟨st.wallet.balance - price,
             st.wallet.cashback_balance + price * CASHBACK_VALUE⟩,
           ledger := st.ledger ++
             [⟨"Data Subscription", "data_topup", .success, price,
               st.wallet.balance, some (st.wallet.balance - price)⟩],
           events := st.events ++ [.charge false "wallet", .providerCall rid,
             .rowInsert .success] },
         .ok false)) ∧
    (∀ (st : St) (p cr : ℚ) (q : Nat) (rid : String),
      1 ≤ q → q ≤ 10 → 0 < p → 0 ≤ cr →
      education_total p q cr ≤ st.wallet.balance → 0 ≤ st.wallet.cashback_balance →
      process_education st "jamb" q p cr "wallet" rid
          (some ⟨some "000"⟩) (some ⟨some "099"⟩) =
        ({ wallet := ⟨st.wallet.balance, st.wallet.cashback_balance⟩,
           ledger := st.ledger ++
             [⟨"JAMB PIN Purchase", "education", .pending, education_total p q cr,
               st.wallet.balance, some (st.wallet.balance - education_total p q cr)⟩],
           events := st.events ++ [.verifyMerchant, .providerCall rid,
             .charge false "wallet", .rowInsert .pending,
             .charge true "wallet", .rowUpdate st.ledger.length .pending] },
         .ok false)) :=
  ⟨airtime_pending_run, electricity_pending_run,
   fun st price commission rid r h0 hb hcb hs1 hs2 hc hs3 =>
     data_best_pending_run st price commission rid r h0 hb hcb hs1 hs2 hc hs3,
   data_regular_pending_run, data_super_pending_run, education_pending_run⟩

/-- C3, witness: the airtime conjunct at wallet balance 500 and amount
200 with pending code "099": one pending row, balance stays at the
debited 300, and no bonus row or refund appears. -/
theorem C3_witness :
    process_airtime ⟨⟨500, 0⟩, [], []⟩ 200 "wallet" "w3" (some ⟨some "099"⟩) =
      (⟨⟨300, 2⟩,
        [⟨"Airtime Subscription", "airtime_topup", .pending, 200, 500, some 300⟩],
        [.charge false "wallet", .providerCall "w3", .rowInsert .pending]⟩,
       .ok false) := by
  have h := C3_pending_behaviour.1 ⟨⟨500, 0⟩, [], []⟩ 200 "w3"
    (by norm_num) (by norm_num) (by norm_num)
  rw [h]
  norm_num [CASHBACK_VALUE]

/-- C4, counterexample.  The claim asserts a replayed request with the
same request_id never produces a second reservation or purchase row.
The source generates a fresh nanoid server-side (src/mobile/airtime.py
line 89) and keeps no record of request ids, so replaying the identical
request (even with the same id sent to the provider) charges again:
starting from balance 1000, two identical 100-Naira airtime calls both
succeed, leaving balance 800, four ledger rows (two purchase rows) and
two reservation charges. -/
theorem C4_counterexample :
    process_airtime
        ((process_airtime ⟨⟨1000, 0⟩, [], []⟩ 100 "wallet" "R" (some ⟨some "000"⟩)).1)
        100 "wallet" "R" (some ⟨some "000"⟩) =
      (⟨⟨800, 2⟩,
        [⟨"Airtime Subscription", "airtime_topup", .success, 100, 1000, some 900⟩,
         ⟨"Data Bonus", "cashback", .success, 1, 1000, some 900⟩,
         ⟨"Airtime Subscription", "airtime_topup", .success, 100, 900, some 800⟩,
         ⟨"Data Bonus", "cashback", .success, 1, 900, some 800⟩],
        [.charge false "wallet", .providerCall "R", .rowInsert .success, .rowInsert .success,
         .charge false "wallet", .providerCall "R", .rowInsert .success, .rowInsert .success]⟩,
       .ok true) := by
  norm_num +decide [process_airtime, airtime_charge_wallet, rpc_charge_wallet,
    update_wallet_balance, update_cashback_balance, St.logEvent, St.insertRow,
    CASHBACK_VALUE]

/-- C4 (amended): the purchase pipeline has no idempotency handling —
`request_id` is generated fresh server-side on every call and never
recorded or compared — so replaying an identical purchase request (even
one carrying the same request_id to the provider) is processed anew and
always produces a second reservation and a second purchase ledger row. -/
theorem C4_replay_not_idempotent (st : St) (a : ℚ) (rid : String)
    (h25 : 25 ≤ a) (hb2 : a + a ≤ st.wallet.balance)
    (hcb : 0 ≤ st.wallet.cashback_balance) :
    process_airtime ((process_airtime st a "wallet" rid (some ⟨some "000"⟩)).1)
        a "wallet" rid (some ⟨some "000"⟩) =
      ({ wallet := ⟨st.wallet.balance - a - a,
           st.wallet.cashback_balance + a * CASHBACK_VALUE + a * CASHBACK_VALUE⟩,
         ledger := st.ledger ++
           [⟨"Airtime Subscription", "airtime_topup", .success, a,
             st.wallet.balance, some (st.wallet.balance - a)⟩,
            ⟨"Data Bonus", "cashback", .success, a * CASHBACK_VALUE,
             st.wallet.balance, some (st.wallet.balance - a)⟩,
            ⟨"Airtime Subscription", "airtime_topup", .success, a,
             st.wallet.balance - a, some (st.wallet.balance - a - a)⟩,
            ⟨"Data Bonus", "cashback", .success, a * CASHBACK_VALUE,
             st.wallet.balance - a, some (st.wallet.balance - a - a)⟩],
         events := st.events ++
           [.charge false "wallet", .providerCall rid, .rowInsert .success, .rowInsert .success,
            .charge false "wallet", .providerCall rid, .rowInsert .success, .rowInsert .success] },
       .ok true) := by
  have ha : (0:ℚ) < a := lt_of_lt_of_le (by norm_num) h25
  rw [airtime_success_run st a rid h25 (by linarith) hcb]
  have h2 := airtime_success_run
    ⟨⟨st.wallet.balance - a, st.wallet.cashback_balance + a * CASHBACK_VALUE⟩,
     st.ledger ++
       [⟨"Airtime Subscription", "airtime_topup", .success, a,
         st.wallet.balance, some (st.wallet.balance - a)⟩,
        ⟨"Data Bonus", "cashback", .success, a * CASHBACK_VALUE,
         st.wallet.balance, some (st.wallet.balance - a)⟩],
     st.events ++ [.charge false "wallet", .providerCall rid,
       .rowInsert .success, .rowInsert .success]⟩
    a rid h25 (show a ≤ st.wallet.balance - a by linarith)
    (show (0:ℚ) ≤ st.wallet.cashback_balance + a * CASHBACK_VALUE from
      add_nonneg hcb (mul_nonneg ha.le (by norm_num [CASHBACK_VALUE])))
  rw [h2]
  simp

/-- C4, witness: two identical 200-Naira airtime purchases from balance
2000 both charge, ending at balance 1600 with four rows. -/
theorem C4_witness :
    process_airtime
        ((process_airtime ⟨⟨2000, 0⟩, [], []⟩ 200 "wallet" "R2" (some ⟨some "000"⟩)).1)
        200 "wallet" "R2" (some ⟨some "000"⟩) =
      (⟨⟨1600, 4⟩,
        [⟨"Airtime Subscription", "airtime_topup", .success, 200, 2000, some 1800⟩,
         ⟨"Data Bonus", "cashback", .success, 2, 2000, some 1800⟩,
         ⟨"Airtime Subscription", "airtime_topup", .success, 200, 1800, some 1600⟩,
         ⟨"Data Bonus", "cashback", .success, 2, 1800, some 1600⟩],
        [.charge false "wallet", .providerCall "R2", .rowInsert .success, .rowInsert .success,
         .charge false "wallet", .providerCall "R2", .rowInsert .success, .rowInsert .success]⟩,
       .ok true) := by
  have h := C4_replay_not_idempotent ⟨⟨2000, 0⟩, [], []⟩ 200 "R2"
    (by norm_num) (by norm_num) (by norm_num)
  rw [h]
  norm_num [CASHBACK_VALUE]

/-- C5, counterexample.  The claim asserts funds are reserved before the
provider adapter is invoked in every category and that electricity and
education verify the merchant before reserving.  In the education run
below the provider-call event (position 1) precedes the wallet charge
(position 2) — src/mobile/education.py calls `buy_education` at line
252 and only charges at line 302 — and the electricity run performs no
merchant verification at all (`verify_merchant` is a separate endpoint,
never called by `process_electricity`). -/
theorem C5_counterexample :
    (process_education ⟨⟨1000, 0⟩, [], []⟩ "jamb" 1 500 (1/10) "wallet" "r"
        (some ⟨some "000"⟩) (some ⟨some "000"⟩)).1.events =
      [.verifyMerchant, .providerCall "r", .charge false "wallet",
       .rowInsert .pending, .rowUpdate 0 .success, .rowInsert .success] ∧
    (process_electricity ⟨⟨1000, 0⟩, [], []⟩ 200 "wallet" "r"
        (some ⟨some "000"⟩)).1.events =
      [.charge false "wallet", .providerCall "r", .rowInsert .success, .rowInsert .success] := by
  constructor
  · norm_num +decide [process_education, education_charge_wallet, education_title,
      education_total, update_wallet_balance, update_cashback_balance,
      St.logEvent, St.insertRow, St.updateRow, CASHBACK_VALUE]
  · norm_num +decide [process_electricity, electricity_charge_wallet, electricity_total,
      update_wallet_balance, update_cashback_balance,
      St.logEvent, St.insertRow, CASHBACK_VALUE]

/-- C5 (amended): in airtime, data (all three providers) and
electricity, whatever the provider response, the wallet reservation is
the first action of the call and the provider call is the second — so
the reservation always precedes the provider invocation; electricity
however performs no merchant verification inside the purchase
transaction; and education verifies the merchant before doing anything
else but then invokes the provider BEFORE reserving funds (its first
two actions are verification then provider call, any charge coming
later). -/
theorem C5_ordering :
    (∀ (st : St) (a : ℚ) (rid : String) (resp : Option VTResp),
      25 ≤ a → a ≤ st.wallet.balance → 0 ≤ st.wallet.cashback_balance →
      (process_airtime st a "wallet" rid resp).1.events.take (st.events.length + 2) =
        st.events ++ [.charge false "wallet", .providerCall rid]) ∧
    (∀ (st : St) (a : ℚ) (rid : String) (resp : Option VTResp),
      100 ≤ a → electricity_total a ≤ st.wallet.balance → 0 ≤ st.wallet.cashback_balance →
      (process_electricity st a "wallet" rid resp).1.events.take (st.events.length + 2) =
        st.events ++ [.charge false "wallet", .providerCall rid] ∧
      (Event.verifyMerchant ∉ st.events →
        Event.verifyMerchant ∉ (process_electricity st a "wallet" rid resp).1.events)) ∧
    (∀ (st : St) (price commission : ℚ) (rid : String) (resp : Option GsubResp),
      0 < price + commission → price + commission ≤ st.wallet.balance →
      0 ≤ st.wallet.cashback_balance →
      (process_data_bundle_best st price commission "wallet" rid resp).1.events.take
          (st.events.length + 2) =
        st.events ++ [.charge false "wallet", .providerCall rid]) ∧
    (∀ (st : St) (price : ℚ) (rid : String) (resp : Option N3tResp),
      0 < price → price ≤ st.wallet.balance → 0 ≤ st.wallet.cashback_balance →
      (process_data_bundle_super st price "wallet" rid resp).1.events.take
          (st.events.length + 2) =
        st.events ++ [.charge false "wallet", .providerCall rid]) ∧
    (∀ (st : St) (price commission : ℚ) (rid : String) (resp : Option VTResp),
      0 < price + commission → price + commission ≤ st.wallet.balance →
      0 ≤ st.wallet.cashback_balance →
      (process_data_bundle_regular st price commission "wallet" rid resp).1.events.take
          (st.events.length + 2) =
        st.events ++ [.charge false "wallet", .providerCall rid]) ∧
    (∀ (st : St) (p cr : ℚ) (q : Nat) (rid : String) (resp : Option VTResp),
      1 ≤ q → q ≤ 10 → 0 < p → 0 ≤ cr →
      education_total p q cr ≤ st.wallet.balance → 0 ≤ st.wallet.cashback_balance →
      (process_education st "jamb" q p cr "wallet" rid
          (some ⟨some "000"⟩) resp).1.events.take (st.events.length + 2) =
        st.events ++ [.verifyMerchant, .providerCall rid]) := by
  refine ⟨?_, ?_, ?_, ?_, ?_, ?_⟩
  · intro st a rid resp h25 hb hcb
    rcases resp with _ | ⟨_ | code⟩
    · rw [airtime_none_run st a rid h25 hb hcb]
      exact take_two_after st.events _ _ []
    · rw [airtime_missing_code_run st a rid h25 hb hcb]
      exact take_two_after st.events _ _ []
    · by_cases hc0 : code = "000"
      · subst hc0
        rw [airtime_success_run st a rid h25 hb hcb]
        exact take_two_after st.events _ _ _
      · by_cases hc9 : code = "099"
        · subst hc9
          rw [airtime_pending_run st a rid h25 hb hcb]
          exact take_two_after st.events _ _ _
        · rw [airtime_failed_run st a rid code h25 hb hcb hc0 hc9]
          exact take_two_after st.events _ _ _
  · intro st a rid resp h100 hb hcb
    have key : ∃ t, (process_electricity st a "wallet" rid resp).1.events =
        st.events ++ .charge false "wallet" :: .providerCall rid :: t ∧
        Event.verifyMerchant ∉ t := by
      rcases resp with _ | ⟨_ | code⟩
      · rw [electricity_none_run st a rid h100 hb hcb]
        exact ⟨[], by simp⟩
      · rw [electricity_missing_code_run st a rid h100 hb hcb]
        exact ⟨[], by simp⟩
      · by_cases hc0 : code = "000"
        · subst hc0
          rw [electricity_success_run st a rid h100 hb hcb]
          exact ⟨[.rowInsert .success, .rowInsert .success], by simp, by simp⟩
        · by_cases hc9 : code = "099"
          · subst hc9
            rw [electricity_pending_run st a rid h100 hb hcb]
            exact ⟨[.rowInsert .pending], by simp, by simp⟩
          · rw [electricity_failed_run st a rid code h100 hb hcb hc0 hc9]
            exact ⟨[.charge true "wallet", .rowInsert .failed], by simp, by simp⟩
    obtain ⟨t, ht, htv⟩ := key
    rw [ht]
    exact ⟨take_two_after st.events _ _ t, fun hv => by simp [hv, htv]⟩
  · intro st price commission rid resp h0 hb hcb
    rcases resp with _ | r
    · rw [data_best_none_run st price commission rid h0 hb hcb]
      exact take_two_after st.events _ _ []
    · by_cases hf : r.status = "failed" ∨ r.status = "TRANSACTION_FAILED"
      · rw [data_best_failed_run st price commission rid r h0 hb hcb hf]
        exact take_two_after st.events _ _ _
      · rw [not_or] at hf
        obtain ⟨hs1, hs2⟩ := hf
        by_cases hc : r.code = 200
        · rw [data_best_success_run st price commission rid r h0 hb hcb hs1 hs2 hc]
          exact take_two_after st.events _ _ _
        · by_cases hrev : r.status = "reversed"
          · rw [data_best_reversed_run st price commission rid r h0 hb hcb hrev hc]
            exact take_two_after st.events _ _ _
          · rw [data_best_pending_run st price commission rid r h0 hb hcb hs1 hs2 hc hrev]
            exact take_two_after st.events _ _ _
  · intro st price rid resp h0 hb hcb
    rcases resp with _ | ⟨s, m⟩
    · rw [data_super_none_run st price rid h0 hb hcb]
      exact take_two_after st.events _ _ []
    · by_cases h1 : s = "success"
      · subst h1
        rw [data_super_success_run st price rid m h0 hb hcb]
        exact take_two_after st.events _ _ _
      · by_cases h2 : s = "pending"
        · subst h2
          rw [data_super_pending_run st price rid m h0 hb hcb]
          exact take_two_after st.events _ _ _
        · by_cases h3 : s = "fail" ∨ s = "failed" ∨ s = "error"
          · rw [data_super_failed_run st price rid ⟨s, m⟩ h0 hb hcb h3]
            exact take_two_after st.events _ _ _
          · rw [not_or, not_or] at h3
            rw [data_super_unknown_run st price rid ⟨s, m⟩ h0 hb hcb h1 h2 h3.1 h3.2.1 h3.2.2]
            exact take_two_after st.events _ _ []
  · intro st price commission rid resp h0 hb hcb
    rcases resp with _ | ⟨_ | code⟩
    · rw [data_regular_none_run st price commission rid h0 hb hcb]
      exact take_two_after st.events _ _ []
    · rw [data_regular_missing_code_run st price commission rid h0 hb hcb]
      exact take_two_after st.events _ _ []
    · by_cases hc0 : code = "000"
      · subst hc0
        rw [data_regular_success_run st price commission rid h0 hb hcb]
        exact take_two_after st.events _ _ _
      · by_cases hc9 : code = "099"
        · subst hc9
          rw [data_regular_pending_run st price commission rid h0 hb hcb]
          exact take_two_after st.events _ _ _
        · rw [data_regular_failed_run st price commission rid code h0 hb hcb hc0 hc9]
          exact take_two_after st.events _ _ _
  · intro st p cr q rid resp hq1 hq10 hp hcr hT hcb
    rcases resp with _ | ⟨_ | code⟩
    · rw [education_none_run st p cr q rid hq1 hq10 hp hT]
      exact take_two_after st.events _ _ []
    · rw [education_missing_code_run st p cr q rid hq1 hq10 hp hT]
      exact take_two_after st.events _ _ []
    · by_cases hc0 : code = "000"
      · subst hc0
        rw [education_success_run st p cr q rid hq1 hq10 hp hcr hT hcb]
        exact take_two_after st.events _ _ _
      · by_cases hc9 : code = "099"
        · subst hc9
          rw [education_pending_run st p cr q rid hq1 hq10 hp hcr hT hcb]
          exact take_two_after st.events _ _ _
        · rw [education_failed_run st p cr q rid code hq1 hq10 hp hcr hT hcb hc0 hc9]
          exact take_two_after st.events _ _ _

/-- C5, witness: the airtime conjunct at balance 500, amount 200,
success response: the first two events of the call are the reservation
charge followed by the provider call. -/
theorem C5_witness :
    (process_airtime ⟨⟨500, 0⟩, [], []⟩ 200 "wallet" "w5"
        (some ⟨some "000"⟩)).1.events.take 2 =
      [.charge false "wallet", .providerCall "w5"] := by
  have h := C5_ordering.1 ⟨⟨500, 0⟩, [], []⟩ 200 "w5" (some ⟨some "000"⟩)
    (by norm_num) (by norm_num) (by norm_num)
  simpa using h

/-- C6, counterexample.  The claim asserts every category rejects
cashback-funded purchases above the 1000-Naira cap with zero ledger
rows and zero balance change.  The airtime `charge_wallet`
(src/mobile/airtime.py lines 112-137) has no cap check: a
cashback-funded airtime purchase of 2000 from a cashback balance of
3000 succeeds, mutates the balances and writes two rows. -/
theorem C6_counterexample :
    process_airtime ⟨⟨0, 3000⟩, [], []⟩ 2000 "cashback" "r" (some ⟨some "000"⟩) =
      (⟨⟨0, 1020⟩,
        [⟨"Airtime Subscription", "airtime_topup", .success, 2000, 0, some (-2000)⟩,
         ⟨"Data Bonus", "cashback", .success, 20, 0, some (-2000)⟩],
        [.charge false "cashback", .providerCall "r", .rowInsert .success, .rowInsert .success]⟩,
       .ok true) ∧
    (1000 : ℚ) < 2000 := by
  constructor
  · norm_num +decide [process_airtime, airtime_charge_wallet, rpc_charge_wallet,
      update_wallet_balance, update_cashback_balance, St.logEvent, St.insertRow,
      CASHBACK_VALUE]
  · norm_num

/-- C6 (amended): the data (all three providers), electricity and
education categories reject a cashback-funded purchase whose charged
amount exceeds 1000 Naira with a raised funding error, zero ledger rows
and zero balance change; the airtime category performs no such cap
check (see the counterexample). -/
theorem C6_cashback_cap :
    (∀ (st : St) (price commission : ℚ) (rid : String) (resp : Option GsubResp),
      1000 < price + commission →
      process_data_bundle_best st price commission "cashback" rid resp =
        (st, .error "You cannot purchase a plan above N 1,000 with Data Bonus at a time.")) ∧
    (∀ (st : St) (price : ℚ) (rid : String) (resp : Option N3tResp),
      1000 < price → price ≤ st.wallet.cashback_balance →
      process_data_bundle_super st price "cashback" rid resp =
        (st, .error "You cannot purchase a plan above N 1,000 with Data Bonus at a time.")) ∧
    (∀ (st : St) (price commission : ℚ) (rid : String) (resp : Option VTResp),
      1000 < price + commission →
      process_data_bundle_regular st price commission "cashback" rid resp =
        (st, .error "You cannot purchase a plan above N 1,000 with Data Bonus at a time.")) ∧
    (∀ (st : St) (a : ℚ) (rid : String) (resp : Option VTResp),
      100 ≤ a → 1000 < electricity_total a →
      electricity_total a ≤ st.wallet.cashback_balance →
      process_electricity st a "cashback" rid resp =
        (st, .error "You cannot purchase a plan above N 1,000 with Data Bonus at a time.")) ∧
    (∀ (st : St) (p cr : ℚ) (q : Nat) (rid : String)
        (verification resp : Option VTResp),
      1 ≤ q → q ≤ 10 → 0 < p → 1000 < education_total p q cr →
      process_education st "jamb" q p cr "cashback" rid verification resp =
        (st, .error "You cannot purchase education services above N1,000 with Data Bonus")) := by
  refine ⟨?_, ?_, ?_, ?_, ?_⟩
  · intro st price commission rid resp hcap
    have h1 : ¬(price + commission ≤ 0) := not_le.2 (by linarith)
    simp [process_data_bundle_best, data_bundle_charge_wallet, h1, hcap]
  · intro st price rid resp hcap hcb
    have h1 : ¬(price ≤ 0) := not_le.2 (by linarith)
    have h2 : ¬(st.wallet.cashback_balance < price) := not_lt.2 hcb
    simp [process_data_bundle_super, data_bundle_charge_wallet, h1, h2, hcap]
  · intro st price commission rid resp hcap
    have h1 : ¬(price + commission ≤ 0) := not_le.2 (by linarith)
    simp [process_data_bundle_regular, data_bundle_charge_wallet, h1, hcap]
  · intro st a rid resp h100 hcap hcb
    have ha : (0:ℚ) < a := lt_of_lt_of_le (by norm_num) h100
    have h0 : ¬(a = 0) := ne_of_gt ha
    have h1 : ¬(a < 100) := not_lt.2 h100
    have h2 : ¬(st.wallet.cashback_balance < electricity_total a) := not_lt.2 hcb
    have h3 : ¬(electricity_total a ≤ 0) := not_le.2 (by linarith)
    simp [process_electricity, electricity_charge_wallet, h0, h1, h2, h3, hcap]
  · intro st p cr q rid verification resp hq1 hq10 hp hcap
    have hq1' : ¬(q < 1) := not_lt.2 hq1
    have hq10' : ¬(10 < q) := not_lt.2 hq10
    have hple : ¬(p ≤ 0) := not_le.2 hp
    simp [process_education, hq1', hq10', hple, hcap]

/-- C6, witness: the electricity conjunct at a requested 1000 Naira
(charged 1100 after markup) funded from a 2000-Naira cashback balance:
rejected, state untouched. -/
theorem C6_witness :
    process_electricity ⟨⟨0, 2000⟩, [], []⟩ 1000 "cashback" "w6" (some ⟨some "000"⟩) =
      (⟨⟨0, 2000⟩, [], []⟩,
       .error "You cannot purchase a plan above N 1,000 with Data Bonus at a time.") := by
  exact C6_cashback_cap.2.2.2.1 ⟨⟨0, 2000⟩, [], []⟩ 1000 "w6" (some ⟨some "000"⟩)
    (by norm_num) (by norm_num [electricity_total]) (by norm_num [electricity_total])

/-- C7, counterexample.  The claim asserts that on provider success the
funding balance decreases by exactly the charged amount in every
category.  The education `charge_wallet`
(src/mobile/education.py lines 235-239) passes the NEGATED amount to
the `update_wallet_balance` RPC on a charge, so under the wallet
store's spec semantics (reserve decrements by the passed amount) a
successful 550-Naira jamb purchase from balance 1000 leaves the
balance at 1550 — increased, not decreased — while its two success
rows still claim balance_after 450. -/
theorem C7_counterexample :
    process_education ⟨⟨1000, 0⟩, [], []⟩ "jamb" 1 500 (1/10) "wallet" "r"
        (some ⟨some "000"⟩) (some ⟨some "000"⟩) =
      (⟨⟨1550, 11/2⟩,
        [⟨"JAMB PIN Purchase", "education", .success, 550, 1000, some 450⟩,
         ⟨"Isubscribe Points", "cashback", .success, 11/2, 1000, some 450⟩],
        [.verifyMerchant, .providerCall "r", .charge false "wallet",
         .rowInsert .pending, .rowUpdate 0 .success, .rowInsert .success]⟩,
       .ok true) ∧
    (1550 : ℚ) ≠ 1000 - 550 := by
  constructor
  · norm_num +decide [process_education, education_charge_wallet, education_title,
      education_total, update_wallet_balance, update_cashback_balance,
      St.logEvent, St.insertRow, St.updateRow, CASHBACK_VALUE]
  · norm_num

/-- C7 (amended): on provider success, in the airtime, data (all three
providers) and electricity categories a wallet-funded purchase ends
with `balance_after = balance_before - amount` and
`cashback_balance_after = cashback_balance_before + amount * 1%`,
recorded as exactly two success rows (a purchase row of the charged
amount and a bonus row of the 1% cashback); in the education category
the two success rows are written the same way, but the charge deltas
are sign-inverted, so the wallet balance actually ends at
`balance_before + amount` (the rows still read `balance_before -
amount`). -/
theorem C7_conservation_on_success :
    (∀ (st : St) (a : ℚ) (rid : String),
      25 ≤ a → a ≤ st.wallet.balance → 0 ≤ st.wallet.cashback_balance →
      process_airtime st a "wallet" rid (some ⟨some "000"⟩) =
        ({ wallet := ⟨st.wallet.balance - a, st.wallet.cashback_balance + a * CASHBACK_VALUE⟩,
           ledger := st.ledger ++
             [⟨"Airtime Subscription", "airtime_topup", .success, a,
               st.wallet.balance, some (st.wallet.balance - a)⟩,
              ⟨"Data Bonus", "cashback", .success, a * CASHBACK_VALUE,
               st.wallet.balance, some (st.wallet.balance - a)⟩],
           events := st.events ++ [.charge false "wallet", .providerCall rid,
             .rowInsert .success, .rowInsert .success] },
         .ok true)) ∧
    (∀ (st : St) (a : ℚ) (rid : String),
      100 ≤ a → electricity_total a ≤ st.wallet.balance → 0 ≤ st.wallet.cashback_balance →
      process_electricity st a "wallet" rid (some ⟨some "000"⟩) =
        ({ wallet := ⟨st.wallet.balance - electricity_total a,
             st.wallet.cashback_balance + electricity_total a * CASHBACK_VALUE⟩,
           ledger := st.ledger ++
             [⟨"Electricity Bill Payment", "meter_topup", .success, electricity_total a,
               st.wallet.balance, some (st.wallet.balance - electricity_total a)⟩,
              ⟨"Cashback Bonus", "cashback", .success, electricity_total a * CASHBACK_VALUE,
               st.wallet.balance, some (st.wallet.balance - electricity_total a)⟩],
           events := st.events ++ [.charge false "wallet", .providerCall rid,
             .rowInsert .success, .rowInsert .success] },
         .ok true)) ∧
    (∀ (st : St) (price commission : ℚ) (rid : String) (r : GsubResp),
      0 < price + commission → price + commission ≤ st.wallet.balance →
      0 ≤ st.wallet.cashback_balance →
      r.status ≠ "failed" → r.status ≠ "TRANSACTION_FAILED" → r.code = 200 →
      process_data_bundle_best st price commission "wallet" rid (some r) =
        ({ wallet := ⟨st.wallet.balance - (price + commission),
             st.wallet.cashback_balance + (price + commission) * CASHBACK_VALUE⟩,
           ledger := st.ledger ++
             [⟨"Data Subscription", "data_topup", .success, price + commission,
               st.wallet.balance, some (st.wallet.balance - (price + commission))⟩,
              ⟨"Data Bonus", "cashback", .success, (price + commission) * CASHBACK_VALUE,
               st.wallet.balance, some (st.wallet.balance - (price + commission))⟩],
           events := st.events ++ [.charge false "wallet", .providerCall rid,
             .rowInsert .success, .rowInsert .success] },
         .ok true)) ∧
    (∀ (st : St) (price : ℚ) (rid : String) (msg : Option String),
      0 < price → price ≤ st.wallet.balance → 0 ≤ st.wallet.cashback_balance →
      process_data_bundle_super st price "wallet" rid (some ⟨"success", msg⟩) =
        ({ wallet := ⟨st.wallet.balance - price,
             st.wallet.cashback_balance + price * CASHBACK_VALUE⟩,
           ledger := st.ledger ++
             [⟨"Data Subscription", "data_topup", .success, price,
               st.wallet.balance, some (st.wallet.balance - price)⟩,
              ⟨"Data Bonus", "cashback", .success, price * CASHBACK_VALUE,
               st.wallet.balance, some (st.wallet.balance - price)⟩],
           events := st.events ++ [.charge false "wallet", .providerCall rid,
             .rowInsert .success, .rowInsert .success] },
         .ok true)) ∧
    (∀ (st : St) (price commission : ℚ) (rid : String),
      0 < price + commission → price + commission ≤ st.wallet.balance →
      0 ≤ st.wallet.cashback_balance →
      process_data_bundle_regular st price commission "wallet" rid (some ⟨some "000"⟩) =
        ({ wallet := ⟨st.wallet.balance - (price + commission),
             st.wallet.cashback_balance + (price + commission) * CASHBACK_VALUE⟩,
           ledger := st.ledger ++
             [⟨"Data Subscription", "data_topup", .success, price + commission,
               st.wallet.balance, some (st.wallet.balance - (price + commission))⟩,
              ⟨"Data Bonus", "cashback", .success, (price + commission) * CASHBACK_VALUE,
               st.wallet.balance, some (st.wallet.balance - (price + commission))⟩],
           events := st.events ++ [.charge false "wallet", .providerCall rid,
             .rowInsert .success, .rowInsert .success] },
         .ok true)) ∧
    (∀ (st : St) (p cr : ℚ) (q : Nat) (rid : String),
      1 ≤ q → q ≤ 10 → 0 < p → 0 ≤ cr →
      education_total p q cr ≤ st.wallet.balance → 0 ≤ st.wallet.cashback_balance →
      process_education st "jamb" q p cr "wallet" rid
          (some ⟨some "000"⟩) (some ⟨some "000"⟩) =
        ({ wallet := ⟨st.wallet.balance + education_total p q cr,
             st.wallet.cashback_balance + education_total p q cr * CASHBACK_VALUE⟩,
           ledger := st.ledger ++
             [⟨"JAMB PIN Purchase", "education", .success, education_total p q cr,
               st.wallet.balance, some (st.wallet.balance - education_total p q cr)⟩,
              ⟨"Isubscribe Points", "cashback", .success,
               education_total p q cr * CASHBACK_VALUE,
               st.wallet.balance, some (st.wallet.balance - education_total p q cr)⟩],
           events := st.events ++ [.verifyMerchant, .providerCall rid,
             .charge false "wallet", .rowInsert .pending,
             .rowUpdate st.ledger.length .success, .rowInsert .success] },
         .ok true)) :=
  ⟨airtime_success_run, electricity_success_run, data_best_success_run,
   data_super_success_run, data_regular_success_run, education_success_run⟩

/-- C7, witness: Scenario A — wallet balance 500, airtime purchase of
200, provider success ⇒ balance 300, a success purchase row of 200, a
success bonus row of 2 (1% cashback), cashback balance +2. -/
theorem C7_witness :
    process_airtime ⟨⟨500, 0⟩, [], []⟩ 200 "wallet" "w7" (some ⟨some "000"⟩) =
      (⟨⟨300, 2⟩,
        [⟨"Airtime Subscription", "airtime_topup", .success, 200, 500, some 300⟩,
         ⟨"Data Bonus", "cashback", .success, 2, 500, some 300⟩],
        [.charge false "wallet", .providerCall "w7", .rowInsert .success, .rowInsert .success]⟩,
       .ok true) := by
  have h := C7_conservation_on_success.1 ⟨⟨500, 0⟩, [], []⟩ 200 "w7"
    (by norm_num) (by norm_num) (by norm_num)
  rw [h]
  norm_num [CASHBACK_VALUE]

/-- C8 (confirmed): in every category, a wallet-funded purchase whose
charged amount exceeds the wallet balance terminates with a raised
funding error before any provider call, with the balance unchanged and
zero ledger rows written (the state is returned untouched).  The
airtime, electricity, education and N3T-data paths check the balance
explicitly in the source; the Gsub and VTPass data paths hit the
balance guard of the spec-modelled `update_wallet_balance` RPC. -/
theorem C8_insufficient_funds_fail_fast :
    (∀ (st : St) (a : ℚ) (rid : String) (resp : Option VTResp),
      25 ≤ a → st.wallet.balance < a →
      process_airtime st a "wallet" rid resp = (st, .error "Insufficient balance")) ∧
    (∀ (st : St) (a : ℚ) (rid : String) (resp : Option VTResp),
      100 ≤ a → st.wallet.balance < electricity_total a →
      process_electricity st a "wallet" rid resp =
        (st, .error "Insufficient wallet balance.")) ∧
    (∀ (st : St) (price commission : ℚ) (rid : String) (resp : Option GsubResp),
      0 ≤ st.wallet.balance → st.wallet.balance < price + commission →
      process_data_bundle_best st price commission "wallet" rid resp =
        (st, .error "insufficient wallet balance")) ∧
    (∀ (st : St) (price : ℚ) (rid : String) (resp : Option N3tResp),
      st.wallet.balance < price →
      process_data_bundle_super st price "wallet" rid resp =
        (st, .error "Insufficient wallet balance for the selected data plan.")) ∧
    (∀ (st : St) (price commission : ℚ) (rid : String) (resp : Option VTResp),
      0 ≤ st.wallet.balance → st.wallet.balance < price + commission →
      process_data_bundle_regular st price commission "wallet" rid resp =
        (st, .error "insufficient wallet balance")) ∧
    (∀ (st : St) (p cr : ℚ) (q : Nat) (rid : String)
        (verification resp : Option VTResp),
      1 ≤ q → q ≤ 10 → 0 < p → st.wallet.balance < education_total p q cr →
      process_education st "jamb" q p cr "wallet" rid verification resp =
        (st, .error "Insufficient wallet balance.")) := by
  refine ⟨?_, ?_, ?_, ?_, ?_, ?_⟩
  · intro st a rid resp h25 hb
    have ha : (0:ℚ) < a := lt_of_lt_of_le (by norm_num) h25
    have h0 : ¬(a = 0) := ne_of_gt ha
    have h1 : ¬(a < 25) := not_lt.2 h25
    simp [process_airtime, airtime_charge_wallet, h0, h1, hb]
  · intro st a rid resp h100 hb
    have ha : (0:ℚ) < a := lt_of_lt_of_le (by norm_num) h100
    have h0 : ¬(a = 0) := ne_of_gt ha
    have h1 : ¬(a < 100) := not_lt.2 h100
    simp [process_electricity, h0, h1, hb]
  · intro st price commission rid resp hb0 hb
    have h1 : ¬(price + commission ≤ 0) := not_le.2 (lt_of_le_of_lt hb0 hb)
    simp [process_data_bundle_best, data_bundle_charge_wallet,
      update_wallet_balance, h1, hb]
  · intro st price rid resp hb
    simp [process_data_bundle_super, hb]
  · intro st price commission rid resp hb0 hb
    have h1 : ¬(price + commission ≤ 0) := not_le.2 (lt_of_le_of_lt hb0 hb)
    simp [process_data_bundle_regular, data_bundle_charge_wallet,
      update_wallet_balance, h1, hb]
  · intro st p cr q rid verification resp hq1 hq10 hp hb
    have hq1' : ¬(q < 1) := not_lt.2 hq1
    have hq10' : ¬(10 < q) := not_lt.2 hq10
    have hple : ¬(p ≤ 0) := not_le.2 hp
    simp [process_education, hq1', hq10', hple, hb]

/-- C8, witness: Scenario B — wallet balance 100, a Gsub data purchase
priced 150: funding error, balance unchanged, zero ledger rows. -/
theorem C8_witness :
    process_data_bundle_best ⟨⟨100, 0⟩, [], []⟩ 150 0 "wallet" "w8" none =
      (⟨⟨100, 0⟩, [], []⟩, .error "insufficient wallet balance") := by
  exact C8_insufficient_funds_fail_fast.2.2.1 ⟨⟨100, 0⟩, [], []⟩ 150 0 "w8" none
    (by norm_num) (by norm_num)

/-- C9, counterexample.  The claim asserts a pending row may only be
superseded by appending a new terminal row with the original pending
row retained unchanged.  The education path instead rewrites its
pending row in place (src/mobile/education.py lines 358-361 update the
row by id): after a successful 800-Naira jamb purchase the final
ledger holds the updated success row at index 0 and the bonus row —
no pending row is retained, and the event trace shows the pending
insert followed by an in-place update of that same index. -/
theorem C9_counterexample :
    (process_education ⟨⟨1000, 0⟩, [], []⟩ "jamb" 2 400 0 "wallet" "r"
        (some ⟨some "000"⟩) (some ⟨some "000"⟩)).1.ledger =
      [⟨"JAMB PIN Purchase", "education", .success, 800, 1000, some 200⟩,
       ⟨"Isubscribe Points", "cashback", .success, 8, 1000, some 200⟩] ∧
    (process_education ⟨⟨1000, 0⟩, [], []⟩ "jamb" 2 400 0 "wallet" "r"
        (some ⟨some "000"⟩) (some ⟨some "000"⟩)).1.events =
      [.verifyMerchant, .providerCall "r", .charge false "wallet",
       .rowInsert .pending, .rowUpdate 0 .success, .rowInsert .success] := by
  constructor <;>
    norm_num +decide [process_education, education_charge_wallet, education_title,
      education_total, update_wallet_balance, update_cashback_balance,
      St.logEvent, St.insertRow, St.updateRow, CASHBACK_VALUE]

/-- C9 (amended): rows present in the ledger before a purchase call are
never mutated by it — every purchase call in every category (and for
every provider response) leaves the pre-existing ledger rows untouched
as a prefix of the final ledger; terminal success/failed rows are thus
never rewritten.  However the education path does NOT supersede its
pending row by appending: it rewrites the pending row it inserted
during the same call in place (see the counterexample), so the
original pending row is not retained. -/
theorem C9_ledger_rows_immutable :
    (∀ (st : St) (a : ℚ) (rid : String) (resp : Option VTResp),
      25 ≤ a → a ≤ st.wallet.balance → 0 ≤ st.wallet.cashback_balance →
      (process_airtime st a "wallet" rid resp).1.ledger.take st.ledger.length = st.ledger) ∧
    (∀ (st : St) (a : ℚ) (rid : String) (resp : Option VTResp),
      100 ≤ a → electricity_total a ≤ st.wallet.balance → 0 ≤ st.wallet.cashback_balance →
      (process_electricity st a "wallet" rid resp).1.ledger.take st.ledger.length = st.ledger) ∧
    (∀ (st : St) (price commission : ℚ) (rid : String) (resp : Option GsubResp),
      0 < price + commission → price + commission ≤ st.wallet.balance →
      0 ≤ st.wallet.cashback_balance →
      (process_data_bundle_best st price commission "wallet" rid resp).1.ledger.take
        st.ledger.length = st.ledger) ∧
    (∀ (st : St) (price : ℚ) (rid : String) (resp : Option N3tResp),
      0 < price → price ≤ st.wallet.balance → 0 ≤ st.wallet.cashback_balance →
      (process_data_bundle_super st price "wallet" rid resp).1.ledger.take
        st.ledger.length = st.ledger) ∧
    (∀ (st : St) (price commission : ℚ) (rid : String) (resp : Option VTResp),
      0 < price + commission → price + commission ≤ st.wallet.balance →
      0 ≤ st.wallet.cashback_balance →
      (process_data_bundle_regular st price commission "wallet" rid resp).1.ledger.take
        st.ledger.length = st.ledger) ∧
    (∀ (st : St) (p cr : ℚ) (q : Nat) (rid : String) (resp : Option VTResp),
      1 ≤ q → q ≤ 10 → 0 < p → 0 ≤ cr →
      education_total p q cr ≤ st.wallet.balance → 0 ≤ st.wallet.cashback_balance →
      (process_education st "jamb" q p cr "wallet" rid
          (some ⟨some "000"⟩) resp).1.ledger.take st.ledger.length = st.ledger) := by
  refine ⟨?_, ?_, ?_, ?_, ?_, ?_⟩
  · intro st a rid resp h25 hb hcb
    rcases resp with _ | ⟨_ | code⟩
    · rw [airtime_none_run st a rid h25 hb hcb]; exact List.take_length st.ledger
    · rw [airtime_missing_code_run st a rid h25 hb hcb]; exact List.take_length st.ledger
    · by_cases hc0 : code = "000"
      · subst hc0
        rw [airtime_success_run st a rid h25 hb hcb]; exact List.take_left _ _
      · by_cases hc9 : code = "099"
        · subst hc9
          rw [airtime_pending_run st a rid h25 hb hcb]; exact List.take_left _ _
        · rw [airtime_failed_run st a rid code h25 hb hcb hc0 hc9]; exact List.take_left _ _
  · intro st a rid resp h100 hb hcb
    rcases resp with _ | ⟨_ | code⟩
    · rw [electricity_none_run st a rid h100 hb hcb]; exact List.take_length st.ledger
    · rw [electricity_missing_code_run st a rid h100 hb hcb]; exact List.take_length st.ledger
    · by_cases hc0 : code = "000"
      · subst hc0
        rw [electricity_success_run st a rid h100 hb hcb]; exact List.take_left _ _
      · by_cases hc9 : code = "099"
        · subst hc9
          rw [electricity_pending_run st a rid h100 hb hcb]; exact List.take_left _ _
        · rw [electricity_failed_run st a rid code h100 hb hcb hc0 hc9]
          exact List.take_left _ _
  · intro st price commission rid resp h0 hb hcb
    rcases resp with _ | r
    · rw [data_best_none_run st price commission rid h0 hb hcb]
      exact List.take_length st.ledger
    · by_cases hf : r.status = "failed" ∨ r.status = "TRANSACTION_FAILED"
      · rw [data_best_failed_run st price commission rid r h0 hb hcb hf]
        exact List.take_left _ _
      · rw [not_or] at hf
        obtain ⟨hs1, hs2⟩ := hf
        by_cases hc : r.code = 200
        · rw [data_best_success_run st price commission rid r h0 hb hcb hs1 hs2 hc]
          exact List.take_left _ _
        · by_cases hrev : r.status = "reversed"
          · rw [data_best_reversed_run st price commission rid r h0 hb hcb hrev hc]
            exact List.take_left _ _
          · rw [data_best_pending_run st price commission rid r h0 hb hcb hs1 hs2 hc hrev]
            exact List.take_left _ _
  · intro st price rid resp h0 hb hcb
    rcases resp with _ | ⟨s, m⟩
    · rw [data_super_none_run st price rid h0 hb hcb]; exact List.take_length st.ledger
    · by_cases h1 : s = "success"
      · subst h1
        rw [data_super_success_run st price rid m h0 hb hcb]; exact List.take_left _ _
      · by_cases h2 : s = "pending"
        · subst h2
          rw [data_super_pending_run st price rid m h0 hb hcb]; exact List.take_left _ _
        · by_cases h3 : s = "fail" ∨ s = "failed" ∨ s = "error"
          · rw [data_super_failed_run st price rid ⟨s, m⟩ h0 hb hcb h3]
            exact List.take_left _ _
          · rw [not_or, not_or] at h3
            rw [data_super_unknown_run st price rid ⟨s, m⟩ h0 hb hcb h1 h2 h3.1 h3.2.1 h3.2.2]
            exact List.take_length st.ledger
  · intro st price commission rid resp h0 hb hcb
    rcases resp with _ | ⟨_ | code⟩
    · rw [data_regular_none_run st price commission rid h0 hb hcb]
      exact List.take_length st.ledger
    · rw [data_regular_missing_code_run st price commission rid h0 hb hcb]
      exact List.take_length st.ledger
    · by_cases hc0 : code = "000"
      · subst hc0
        rw [data_regular_success_run st price commission rid h0 hb hcb]
        exact List.take_left _ _
      · by_cases hc9 : code = "099"
        · subst hc9
          rw [data_regular_pending_run st price commission rid h0 hb hcb]
          exact List.take_left _ _
        · rw [data_regular_failed_run st price commission rid code h0 hb hcb hc0 hc9]
          exact List.take_left _ _
  · intro st p cr q rid resp hq1 hq10 hp hcr hT hcb
    rcases resp with _ | ⟨_ | code⟩
    · rw [education_none_run st p cr q rid hq1 hq10 hp hT]
      exact List.take_length st.ledger
    · rw [education_missing_code_run st p cr q rid hq1 hq10 hp hT]
      exact List.take_length st.ledger
    · by_cases hc0 : code = "000"
      · subst hc0
        rw [education_success_run st p cr q rid hq1 hq10 hp hcr hT hcb]
        exact List.take_left _ _
      · by_cases hc9 : code = "099"
        · subst hc9
          rw [education_pending_run st p cr q rid hq1 hq10 hp hcr hT hcb]
          exact List.take_left _ _
        · rw [education_failed_run st p cr q rid code hq1 hq10 hp hcr hT hcb hc0 hc9]
          exact List.take_left _ _

/-- C9, witness: an airtime purchase run against a ledger already
holding one terminal row leaves that row untouched as the prefix. -/
theorem C9_witness :
    (process_airtime
        ⟨⟨500, 0⟩, [⟨"Airtime Subscription", "airtime_topup", .success, 50, 100, some 50⟩], []⟩
        200 "wallet" "w9" (some ⟨some "000"⟩)).1.ledger.take 1 =
      [⟨"Airtime Subscription", "airtime_topup", .success, 50, 100, some 50⟩] := by
  have h := C9_ledger_rows_immutable.1
    ⟨⟨500, 0⟩, [⟨"Airtime Subscription", "airtime_topup", .success, 50, 100, some 50⟩], []⟩
    200 "w9" (some ⟨some "000"⟩) (by norm_num) (by norm_num) (by norm_num)
  simpa using h

/-- C10 (code bug): the per-category `charge_wallet` helpers do NOT
apply the same signed deltas.  Data-bundle and electricity agree
exactly (last conjunct, for all inputs), but education passes the
opposite-signed wallet amount to `update_wallet_balance`: at wallet
(100, 0), amount 50, refund=False education yields balance 150 (a
credit) where data-bundle and electricity yield balance 50 (a debit),
and with refund=True education debits (balance 50) where the others
credit (balance 150); the cashback deltas agree throughout. -/
theorem C10_education_charge_sign_flipped :
    education_charge_wallet ⟨100, 0⟩ "wallet" 50 false = (⟨150, 1/2⟩, none) ∧
    data_bundle_charge_wallet ⟨100, 0⟩ "wallet" 50 false = (⟨50, 1/2⟩, none) ∧
    electricity_charge_wallet ⟨100, 0⟩ "wallet" 50 false = (⟨50, 1/2⟩, none) ∧
    education_charge_wallet ⟨100, 1/2⟩ "wallet" 50 true = (⟨50, 0⟩, none) ∧
    data_bundle_charge_wallet ⟨100, 1/2⟩ "wallet" 50 true = (⟨150, 0⟩, none) ∧
    ((⟨150, 1/2⟩ : Wallet), (none : Option String)) ≠ ((⟨50, 1/2⟩ : Wallet), none) ∧
    (∀ (w : Wallet) (m : String) (a : ℚ) (r : Bool),
      electricity_charge_wallet w m a r = data_bundle_charge_wallet w m a r) := by
  refine ⟨?_, ?_, ?_, ?_, ?_, by simp, fun w m a r => rfl⟩ <;>
    norm_num +decide [education_charge_wallet, data_bundle_charge_wallet,
      electricity_charge_wallet, update_wallet_balance, update_cashback_balance,
      CASHBACK_VALUE]

end Claims

section SanityChecks

example :
    process_airtime ⟨⟨500, 0⟩, [], []⟩ 200 "wallet" "r1" (some ⟨some "000"⟩) =
      (⟨⟨300, 2⟩,
        [⟨"Airtime Subscription", "airtime_topup", .success, 200, 500, some 300⟩,
         ⟨"Data Bonus", "cashback", .success, 2, 500, some 300⟩],
        [.charge false "wallet", .providerCall "r1", .rowInsert .success, .rowInsert .success]⟩,
       .ok true) := by
  norm_num +decide [process_airtime, airtime_charge_wallet, rpc_charge_wallet, update_wallet_balance,
    update_cashback_balance, St.insertRow, St.logEvent, CASHBACK_VALUE]

example :
    process_airtime ⟨⟨500, 0⟩, [], []⟩ 200 "wallet" "r1" (some ⟨some "016"⟩) =
      (⟨⟨500, 0⟩,
        [⟨"Airtime Subscription", "airtime_topup", .failed, 200, 500, some 500⟩],
        [.charge false "wallet", .providerCall "r1", .charge true "wallet", .rowInsert .failed]⟩,
       .ok false) := by
  norm_num +decide [process_airtime, airtime_charge_wallet, rpc_charge_wallet, update_wallet_balance,
    update_cashback_balance, St.insertRow, St.logEvent, CASHBACK_VALUE]

example :
    process_airtime ⟨⟨500, 0⟩, [], []⟩ 200 "wallet" "r1" none =
      (⟨⟨300, 2⟩, [], [.charge false "wallet", .providerCall "r1"]⟩,
       .error "No response was received from the server") := by
  norm_num +decide [process_airtime, airtime_charge_wallet, rpc_charge_wallet, update_wallet_balance,
    update_cashback_balance, St.insertRow, St.logEvent, CASHBACK_VALUE]

end SanityChecks

end Isubscribe
